import Mathlib

/-!
# Node syncer

A shallow embedding of `controller/nodesyncer/nodessyncer.go`: the handler `sync`
that mirrors every orchestrator node into a cluster-scoped `ClusterNode` record.

* Go pointers that may be nil are `Option`; a Go `error` is `Option String`
  (its message, which is what `%v` prints), and a `(value, error)` pair is
  `Except String value`.
* The two store handles of `NodeSyncer` are interfaces in Go.  Here they are
  records of functions over an arbitrary store state `σ`; every call returns its
  answer together with the next store state, so a store may fail or change at will.
* Every store call is also appended to a log (`World.log`) with its outcome, so
  that "what was submitted to the store" is a value theorems can talk about.
-/

namespace Nodesyncer

/-! ## Data model (Kubernetes and rancher types used by the syncer) -/

/-- A Go `map[string]string`; `none` is the nil map. -/
abbrev StringMap := Option (List (String × String))

/-- A Go `map[v1.ResourceName]resource.Quantity`; `none` is the nil map and
`some []` the empty map returned by `make`.  Quantities are in milli-units. -/
abbrev ResourceList := Option (List (String × Int))

/-- The type `metav1.TypeMeta`. -/
structure TypeMeta where
  Kind : String := ""
  APIVersion : String := ""
  deriving DecidableEq, Repr

/-- The type `metav1.OwnerReference` (fields the syncer sets). -/
structure OwnerReference where
  APIVersion : String := ""
  Kind : String := ""
  Name : String := ""
  UID : String := ""
  deriving DecidableEq, Repr

/-- The type `metav1.ObjectMeta` (fields the syncer reads or writes; a field not
listed here is never touched and stays at its zero value).  `DeletionTimestamp`
is a `*metav1.Time`, kept as seconds. -/
structure ObjectMeta where
  Name : String := ""
  GenerateName : String := ""
  UID : String := ""
  ResourceVersion : String := ""
  DeletionTimestamp : Option Nat := none
  Labels : StringMap := none
  Annotations : StringMap := none
  OwnerReferences : List OwnerReference := []
  deriving DecidableEq, Repr

/-- The type `v1.NodeSpec`.  The syncer copies the block as a whole. -/
structure NodeSpec where
  PodCIDR : String := ""
  ExternalID : String := ""
  ProviderID : String := ""
  Unschedulable : Bool := false
  Taints : List (String × String × String) := []
  deriving DecidableEq, Repr

/-- The type `v1.NodeStatus`.  The syncer copies the block as a whole. -/
structure NodeStatus where
  Capacity : ResourceList := none
  Allocatable : ResourceList := none
  Phase : String := ""
  Conditions : List (String × String) := []
  Addresses : List (String × String) := []
  deriving DecidableEq, Repr

/-- The type `v1.Node`: the node observation delivered by the orchestrator. -/
structure Node where
  TypeMeta : TypeMeta := {}
  ObjectMeta : ObjectMeta := {}
  Spec : NodeSpec := {}
  Status : NodeStatus := {}
  deriving DecidableEq, Repr

/-- The type `clusterv1.Cluster` (identity part: type and object metadata). -/
structure Cluster where
  TypeMeta : TypeMeta := {}
  ObjectMeta : ObjectMeta := {}
  deriving DecidableEq, Repr

/-- The type `clusterv1.ClusterNodeStatus`. -/
structure ClusterNodeStatus where
  NodeStatus : NodeStatus := {}
  Requested : ResourceList := none
  Limits : ResourceList := none
  deriving DecidableEq, Repr

/-- Modelled from the spec: the declaration of `clusterv1.ClusterNode` lives in
the vendored rancher types, not in this repository.  The fields are those the
syncer assigns (`NodeSpec`, `Status`, `APIVersion`, `Kind`, `ClusterName`,
`NodeName`, `ObjectMeta`), with `cluster_name` and `node_name` fields of the
record itself, as in the data model of the spec. -/
structure ClusterNode where
  TypeMeta : TypeMeta := {}
  ObjectMeta : ObjectMeta := {}
  NodeSpec : NodeSpec := {}
  Status : ClusterNodeStatus := {}
  NodeName : String := ""
  ClusterName : String := ""
  deriving DecidableEq, Repr

/-! ## Store handles and the call trace -/

/-- One call on a store handle, with its argument. -/
inductive Call where
  | list
  | get (name : String)
  | create (obj : ClusterNode)
  | update (obj : ClusterNode)
  | delete (name : String)
  deriving DecidableEq, Repr

/-- The methods of `clusterv1.ClusterNodeInterface` that the syncer calls. -/
structure ClusterNodeInterface (σ : Type) where
  Create : ClusterNode → σ → Except String ClusterNode × σ
  Update : ClusterNode → σ → Except String ClusterNode × σ
  Delete : String → σ → Option String × σ
  List : σ → Except String (List ClusterNode) × σ

/-- The method of `clusterv1.ClusterInterface` that the syncer calls. -/
structure ClusterInterface (σ : Type) where
  Get : String → σ → Except String Cluster × σ

/-- The type `NodeSyncer`. -/
structure NodeSyncer (σ : Type) where
  ClusterNodes : ClusterNodeInterface σ
  Clusters : ClusterInterface σ
  clusterName : String

/-- One store call as the syncer saw it: the call and the error it came back
with, if it failed. -/
structure Exchange where
  call : Call
  failure : Option String
  deriving DecidableEq, Repr

/-- The store state together with the exchanges so far, oldest first. -/
structure World (σ : Type) where
  store : σ
  log : List Exchange
  deriving DecidableEq

/-- The calls issued so far, oldest first. -/
def World.calls {σ : Type} (w : World σ) : List Call := w.log.map Exchange.call

/-- Log a call with its outcome and move to the store state it left behind. -/
def World.record {σ : Type} (w : World σ) (c : Call) (failure : Option String) (s : σ) :
    World σ :=
  { store := s, log := w.log ++ [{ call := c, failure := failure }] }

/-! ## The syncer -/

/-- The loop of `getClusterNode`: the first item, in order, whose `NodeName`
equals `nodeName`. -/
def findByNodeName (nodeName : String) : List ClusterNode → Option ClusterNode
  | [] => none
  | node :: rest =>
    if node.NodeName = nodeName then some node else findByNodeName nodeName rest

/-- The method `getClusterNode`. -/
def NodeSyncer.getClusterNode {σ : Type} (n : NodeSyncer σ) (nodeName : String)
    (w : World σ) : Except String (Option ClusterNode) × World σ :=
  match n.ClusterNodes.List w.store with
  | (Except.error err, s) => (Except.error err, w.record Call.list (some err) s)
  | (Except.ok nodes, s) =>
    (Except.ok (findByNodeName nodeName nodes), w.record Call.list none s)

/-- The method `deleteClusterNode`. -/
def NodeSyncer.deleteClusterNode {σ : Type} (n : NodeSyncer σ) (nodeName : String)
    (w : World σ) : Option String × World σ :=
  match n.getClusterNode nodeName w with
  | (Except.error err, w1) => (some err, w1)
  | (Except.ok none, w1) => (none, w1)
  | (Except.ok (some clusterNode), w1) =>
    match n.ClusterNodes.Delete clusterNode.ObjectMeta.Name w1.store with
    | (some err, s) =>
      (some ("Failed to delete cluster node [" ++ nodeName ++ "] " ++ err),
        w1.record (Call.delete clusterNode.ObjectMeta.Name) (some err) s)
    | (none, s) => (none, w1.record (Call.delete clusterNode.ObjectMeta.Name) none s)

/-- The method `convertNodeToClusterNode`. -/
def NodeSyncer.convertNodeToClusterNode {σ : Type} (n : NodeSyncer σ) :
    Option Node → Cluster → Option ClusterNode
  | none, _ => none
  | some node, cluster =>
    let clusterNode : ClusterNode :=
      { NodeSpec := node.Spec, Status := { NodeStatus := node.Status } }
    let clusterNode := { clusterNode with
      TypeMeta := { clusterNode.TypeMeta with APIVersion := "cluster.cattle.io/v1" } }
    let clusterNode := { clusterNode with
      TypeMeta := { clusterNode.TypeMeta with Kind := "ClusterNode" } }
    let clusterNode := { clusterNode with ClusterName := n.clusterName }
    let clusterNode := { clusterNode with NodeName := node.ObjectMeta.Name }
    let clusterNode := { clusterNode with
      ObjectMeta :=
        { GenerateName := "clusternode-"
          Labels := node.ObjectMeta.Labels
          Annotations := node.ObjectMeta.Annotations } }
    let ref : OwnerReference :=
      { Name := n.clusterName
        UID := cluster.ObjectMeta.UID
        APIVersion := cluster.TypeMeta.APIVersion
        Kind := cluster.TypeMeta.Kind }
    some { clusterNode with
      ObjectMeta := { clusterNode.ObjectMeta with
        OwnerReferences := clusterNode.ObjectMeta.OwnerReferences ++ [ref] } }

/-- What a Go program reports when a nil pointer is dereferenced. -/
def nilDereference : String :=
  "runtime error: invalid memory address or nil pointer dereference"

/-- The method `createOrUpdateClusterNode`.  Its argument is dereferenced on the
first line, so it is a node, not a pointer that may be nil. -/
def NodeSyncer.createOrUpdateClusterNode {σ : Type} (n : NodeSyncer σ) (node : Node)
    (w : World σ) : Option String × World σ :=
  match n.getClusterNode node.ObjectMeta.Name w with
  | (Except.error err, w1) => (some err, w1)
  | (Except.ok existing, w1) =>
    match n.Clusters.Get n.clusterName w1.store with
    | (Except.error err, s2) =>
      (some ("Failed to get cluster [" ++ n.clusterName ++ "] " ++ err),
        w1.record (Call.get n.clusterName) (some err) s2)
    | (Except.ok cluster, s2) =>
      let w2 := w1.record (Call.get n.clusterName) none s2
      match n.convertNodeToClusterNode (some node) cluster with
      | none => (some nilDereference, w2)
      | some clusterNode =>
        if cluster.ObjectMeta.DeletionTimestamp ≠ none then
          (some ("Cluster [" ++ n.clusterName ++ "] in removing state"), w2)
        else
          match existing with
          | none =>
            let clusterNode := { clusterNode with
              Status := { clusterNode.Status with Requested := some [] } }
            let clusterNode := { clusterNode with
              Status := { clusterNode.Status with Limits := some [] } }
            match n.ClusterNodes.Create clusterNode w2.store with
            | (Except.error err, s3) =>
              (some ("Failed to create cluster node [" ++ node.ObjectMeta.Name ++ "] " ++ err),
                w2.record (Call.create clusterNode) (some err) s3)
            | (Except.ok _, s3) => (none, w2.record (Call.create clusterNode) none s3)
          | some existing =>
            let clusterNode := { clusterNode with
              ObjectMeta := { clusterNode.ObjectMeta with
                ResourceVersion := existing.ObjectMeta.ResourceVersion } }
            let clusterNode := { clusterNode with
              ObjectMeta := { clusterNode.ObjectMeta with Name := existing.ObjectMeta.Name } }
            let clusterNode := { clusterNode with
              Status := { clusterNode.Status with Requested := existing.Status.Requested } }
            let clusterNode := { clusterNode with
              Status := { clusterNode.Status with Limits := existing.Status.Limits } }
            match n.ClusterNodes.Update clusterNode w2.store with
            | (Except.error err, s3) =>
              (some ("Failed to update cluster node [" ++ node.ObjectMeta.Name ++ "] " ++ err),
                w2.record (Call.update clusterNode) (some err) s3)
            | (Except.ok _, s3) => (none, w2.record (Call.update clusterNode) none s3)

/-- The handler `sync`: the returned error (if any), the final store state and
the exchanges with the store, starting from store state `s` and an empty log. -/
def NodeSyncer.sync {σ : Type} (n : NodeSyncer σ) (key : String) (node : Option Node)
    (s : σ) : Option String × World σ :=
  match node with
  | none => n.deleteClusterNode key { store := s, log := [] }
  | some node => n.createOrUpdateClusterNode node { store := s, log := [] }

/-! ## A scripted store

Every call answers from a fixed script and the store state (a unit) never
changes.  It plays the part of a fake client in a Go test. -/

/-- The answers of a scripted store. -/
structure Script where
  items : Except String (List ClusterNode) := Except.ok []
  cluster : Except String Cluster := Except.ok {}
  createErr : Option String := none
  updateErr : Option String := none
  deleteErr : Option String := none

/-- The syncer wired to a scripted store. -/
def Script.syncer (sc : Script) (clusterName : String) : NodeSyncer Unit :=
  { ClusterNodes :=
      { Create := fun obj s =>
          match sc.createErr with
          | some e => (Except.error e, s)
          | none => (Except.ok obj, s)
        Update := fun obj s =>
          match sc.updateErr with
          | some e => (Except.error e, s)
          | none => (Except.ok obj, s)
        Delete := fun _ s => (sc.deleteErr, s)
        List := fun s => (sc.items, s) }
    Clusters := { Get := fun _ s => (sc.cluster, s) }
    clusterName := clusterName }

/-! ## A sequential record store

The record store and the cluster store are external collaborators.  This is
the sequential model the stateful properties are stated over: records are
keyed by their `name`; `create` assigns a name that no stored record has
(when the payload carries only a generate-name hint) and a resource version;
`update` replaces the record of the same name, provided the payload carries
the stored resource version, and advances the version; `delete` removes the
record of that name. -/

/-- The store key of a record. -/
def nameOf (r : ClusterNode) : String := r.ObjectMeta.Name

/-- Modelled from the spec: the record store and the cluster store are external
collaborators (section 6 of the spec), not code of this repository.  The state
of the sequential store: the derived records in listing order, the cluster
records, and the counter resource versions are drawn from.  No two records
share a name. -/
structure RecordStore where
  items : List ClusterNode
  clusters : List Cluster
  revision : Nat
  names_nodup : (items.map nameOf).Nodup

/-- The longest name in use. -/
def maxNameLength : List ClusterNode → Nat
  | [] => 0
  | r :: rest => max (nameOf r).length (maxNameLength rest)

/-- The name the store generates from a generate-name hint: the hint followed
by a run of `x` longer than every name in use. -/
def generatedName (items : List ClusterNode) (hint : String) : String :=
  hint ++ String.mk (List.replicate (maxNameLength items + 1) 'x')

/-- Store operation `list`. -/
def RecordStore.list (s : RecordStore) : Except String (List ClusterNode) × RecordStore :=
  (Except.ok s.items, s)

/-- Store operation `get` on the cluster records. -/
def RecordStore.getCluster (name : String) (s : RecordStore) :
    Except String Cluster × RecordStore :=
  match s.clusters.find? (fun c => decide (c.ObjectMeta.Name = name)) with
  | some c => (Except.ok c, s)
  | none => (Except.error ("clusters \"" ++ name ++ "\" not found"), s)

/-- Store operation `create`. -/
def RecordStore.create (obj : ClusterNode) (s : RecordStore) :
    Except String ClusterNode × RecordStore :=
  let name :=
    if obj.ObjectMeta.Name = "" then generatedName s.items obj.ObjectMeta.GenerateName
    else obj.ObjectMeta.Name
  let stored : ClusterNode := { obj with
    ObjectMeta := { obj.ObjectMeta with
      Name := name, ResourceVersion := toString s.revision } }
  if h : name ∈ s.items.map nameOf then
    (Except.error ("clusternodes \"" ++ name ++ "\" already exists"), s)
  else
    (Except.ok stored,
      { items := s.items ++ [stored]
        clusters := s.clusters
        revision := s.revision + 1
        names_nodup := by
          rw [List.map_append]
          refine List.Nodup.append s.names_nodup (List.nodup_singleton _) ?_
          intro a ha hb
          simp only [List.map_cons, List.map_nil, List.mem_singleton] at hb
          subst hb
          exact h ha })

/-- Store operation `update`. -/
def RecordStore.update (obj : ClusterNode) (s : RecordStore) :
    Except String ClusterNode × RecordStore :=
  match s.items.find? (fun r => decide (nameOf r = nameOf obj)) with
  | none => (Except.error ("clusternodes \"" ++ nameOf obj ++ "\" not found"), s)
  | some cur =>
    if cur.ObjectMeta.ResourceVersion ≠ obj.ObjectMeta.ResourceVersion then
      (Except.error ("conflict on clusternodes \"" ++ nameOf obj ++ "\""), s)
    else
      let stored : ClusterNode := { obj with
        ObjectMeta := { obj.ObjectMeta with ResourceVersion := toString s.revision } }
      (Except.ok stored,
        { items := s.items.map (fun r => if nameOf r = nameOf obj then stored else r)
          clusters := s.clusters
          revision := s.revision + 1
          names_nodup := by
            have hsame : (s.items.map (fun r => if nameOf r = nameOf obj then stored else r)).map
                nameOf = s.items.map nameOf := by
              rw [List.map_map]
              apply List.map_congr_left
              intro r _
              by_cases hr : nameOf r = nameOf obj
              · simp only [Function.comp, hr, if_true]
                rfl
              · simp only [Function.comp, hr, if_false]
            rw [hsame]
            exact s.names_nodup })

/-- Store operation `delete`. -/
def RecordStore.delete (name : String) (s : RecordStore) : Option String × RecordStore :=
  if name ∈ s.items.map nameOf then
    (none,
      { items := s.items.filter (fun r => decide (nameOf r ≠ name))
        clusters := s.clusters
        revision := s.revision + 1
        names_nodup :=
          List.Nodup.sublist (List.Sublist.map nameOf (List.filter_sublist s.items))
            s.names_nodup })
  else
    (some ("clusternodes \"" ++ name ++ "\" not found"), s)

/-- The record `r` with its resource version set to `rv`. -/
def withResourceVersion (r : ClusterNode) (rv : String) : ClusterNode :=
  { r with ObjectMeta := { r.ObjectMeta with ResourceVersion := rv } }

/-- The record `r` with its name set to `name`. -/
def withName (r : ClusterNode) (name : String) : ClusterNode :=
  { r with ObjectMeta := { r.ObjectMeta with Name := name } }

/-- The syncer wired to the sequential store. -/
def storeSyncer (clusterName : String) : NodeSyncer RecordStore :=
  { ClusterNodes :=
      { Create := RecordStore.create
        Update := RecordStore.update
        Delete := RecordStore.delete
        List := RecordStore.list }
    Clusters := { Get := RecordStore.getCluster }
    clusterName := clusterName }

/-! ## The two records `sync` builds

`updatePayload` and `createPayload` name the records built on lines 79 and
84-99 of the source; the lemmas `sync_known_eq` and `sync_unseen_eq` show that
these are the records `sync` submits, so no statement depends on trusting them. -/

/-- The record built for an update: the projection of the node with the
existing record's resource version, name, requested and limits written over it. -/
def updatePayload {σ : Type} (n : NodeSyncer σ) (node : Node) (c : Cluster)
    (E : ClusterNode) : ClusterNode :=
  { TypeMeta := { Kind := "ClusterNode", APIVersion := "cluster.cattle.io/v1" }
    ObjectMeta :=
      { Name := E.ObjectMeta.Name
        GenerateName := "clusternode-"
        ResourceVersion := E.ObjectMeta.ResourceVersion
        Labels := node.ObjectMeta.Labels
        Annotations := node.ObjectMeta.Annotations
        OwnerReferences :=
          [{ APIVersion := c.TypeMeta.APIVersion, Kind := c.TypeMeta.Kind,
             Name := n.clusterName, UID := c.ObjectMeta.UID }] }
    NodeSpec := node.Spec
    Status :=
      { NodeStatus := node.Status, Requested := E.Status.Requested,
        Limits := E.Status.Limits }
    NodeName := node.ObjectMeta.Name
    ClusterName := n.clusterName }

/-- The record built for a create: the projection of the node with empty
requested and limits maps. -/
def createPayload {σ : Type} (n : NodeSyncer σ) (node : Node) (c : Cluster) : ClusterNode :=
  { TypeMeta := { Kind := "ClusterNode", APIVersion := "cluster.cattle.io/v1" }
    ObjectMeta :=
      { GenerateName := "clusternode-"
        Labels := node.ObjectMeta.Labels
        Annotations := node.ObjectMeta.Annotations
        OwnerReferences :=
          [{ APIVersion := c.TypeMeta.APIVersion, Kind := c.TypeMeta.Kind,
             Name := n.clusterName, UID := c.ObjectMeta.UID }] }
    NodeSpec := node.Spec
    Status := { NodeStatus := node.Status, Requested := some [], Limits := some [] }
    NodeName := node.ObjectMeta.Name
    ClusterName := n.clusterName }

/-! ## Concrete data for the worked instances -/

/-- A node observation named `node-1`. -/
def sampleNode : Node :=
  { ObjectMeta :=
      { Name := "node-1"
        UID := "n-uid"
        ResourceVersion := "7"
        Labels := some [("b", "2")]
        Annotations := some [("zone", "east")] }
    Spec := { PodCIDR := "10.42.0.0/24", Unschedulable := true }
    Status := { Capacity := some [("cpu", 4000)], Phase := "Running" } }

/-- A live cluster record named `local`. -/
def sampleCluster : Cluster :=
  { TypeMeta := { Kind := "Cluster", APIVersion := "cluster.cattle.io/v1" }
    ObjectMeta := { Name := "local", UID := "c-uid-1" } }

/-- The cluster `local` while it is being removed. -/
def removingCluster : Cluster :=
  { sampleCluster with
    ObjectMeta := { sampleCluster.ObjectMeta with DeletionTimestamp := some 1510000000 } }

/-- A stored record of `node-1`, with accounting fields and labels written by
other controllers. -/
def sampleRecord : ClusterNode :=
  { TypeMeta := { Kind := "ClusterNode", APIVersion := "cluster.cattle.io/v1" }
    ObjectMeta :=
      { Name := "clusternode-k4x9p"
        GenerateName := "clusternode-"
        ResourceVersion := "41"
        Labels := some [("a", "1")]
        Annotations := some [("owner", "ops")]
        OwnerReferences :=
          [{ APIVersion := "cluster.cattle.io/v1", Kind := "Cluster", Name := "local",
             UID := "c-uid-1" }] }
    NodeSpec := { PodCIDR := "10.42.0.0/24" }
    Status :=
      { NodeStatus := { Phase := "Pending" }
        Requested := some [("cpu", 500)]
        Limits := some [("memory", 1024)] }
    NodeName := "node-1"
    ClusterName := "local" }

/-- A stored record of another node. -/
def otherRecord : ClusterNode :=
  { sampleRecord with
    ObjectMeta := { sampleRecord.ObjectMeta with Name := "clusternode-zz", ResourceVersion := "3" }
    NodeName := "node-2" }

/-- A scripted store that lists two records, the second one for `node-1`, and
serves the live cluster. -/
def sampleScript : Script :=
  { items := Except.ok [otherRecord, sampleRecord], cluster := Except.ok sampleCluster }

/-- The same store while the cluster is being removed. -/
def removingScript : Script :=
  { items := Except.ok [otherRecord, sampleRecord], cluster := Except.ok removingCluster }

/-- The record `sync` submits when `sampleNode` is reconciled against
`sampleRecord` under `sampleCluster`, written out field by field. -/
def sampleUpdate : ClusterNode :=
  { TypeMeta := { Kind := "ClusterNode", APIVersion := "cluster.cattle.io/v1" }
    ObjectMeta :=
      { Name := "clusternode-k4x9p"
        GenerateName := "clusternode-"
        ResourceVersion := "41"
        Labels := some [("b", "2")]
        Annotations := some [("zone", "east")]
        OwnerReferences :=
          [{ APIVersion := "cluster.cattle.io/v1", Kind := "Cluster", Name := "local",
             UID := "c-uid-1" }] }
    NodeSpec := { PodCIDR := "10.42.0.0/24", Unschedulable := true }
    Status :=
      { NodeStatus := { Capacity := some [("cpu", 4000)], Phase := "Running" }
        Requested := some [("cpu", 500)]
        Limits := some [("memory", 1024)] }
    NodeName := "node-1"
    ClusterName := "local" }

/-- A sequential store holding one record of another node and the cluster
`local` in removal. -/
def removingStore : RecordStore :=
  { items := [otherRecord], clusters := [removingCluster], revision := 50,
    names_nodup := by decide }

/-- The cluster `local` after it was deleted and created again: same name, new
unique identifier. -/
def recreatedCluster : Cluster :=
  { sampleCluster with ObjectMeta := { sampleCluster.ObjectMeta with UID := "c-uid-2" } }

/-- A sequential store with the live cluster and no derived record. -/
def emptyStore : RecordStore :=
  { items := [], clusters := [sampleCluster], revision := 1, names_nodup := by decide }

/-- The store after `node-1` was reconciled once from `emptyStore`. -/
def createdStore : RecordStore :=
  ((storeSyncer "local").sync "node-1" (some sampleNode) emptyStore).2.store

/-- The store `createdStore` after the cluster was deleted and created again. -/
def recreatedStore : RecordStore :=
  { createdStore with clusters := [recreatedCluster] }

/-- The record `sync` submits to `Create` for `sampleNode` under `sampleCluster`,
written out field by field. -/
def sampleCreate : ClusterNode :=
  { TypeMeta := { Kind := "ClusterNode", APIVersion := "cluster.cattle.io/v1" }
    ObjectMeta :=
      { GenerateName := "clusternode-"
        Labels := some [("b", "2")]
        Annotations := some [("zone", "east")]
        OwnerReferences :=
          [{ APIVersion := "cluster.cattle.io/v1", Kind := "Cluster", Name := "local",
             UID := "c-uid-1" }] }
    NodeSpec := { PodCIDR := "10.42.0.0/24", Unschedulable := true }
    Status :=
      { NodeStatus := { Capacity := some [("cpu", 4000)], Phase := "Running" }
        Requested := some []
        Limits := some [] }
    NodeName := "node-1"
    ClusterName := "local" }

/-- The record `sync` submits to `Update` for `sampleNode` on `recreatedStore`,
written out field by field. -/
def recreatedUpdate : ClusterNode :=
  { sampleCreate with
    ObjectMeta := { sampleCreate.ObjectMeta with
      Name := "clusternode-x"
      ResourceVersion := "1"
      OwnerReferences :=
        [{ APIVersion := "cluster.cattle.io/v1", Kind := "Cluster", Name := "local",
           UID := "c-uid-2" }] } }

/-- A sequential store with the live cluster and the records of `node-2` and
`node-1`. -/
def sampleStore : RecordStore :=
  { items := [otherRecord, sampleRecord], clusters := [sampleCluster], revision := 50,
    names_nodup := by decide }

/-- A second stored record of `node-1`, under another name. -/
def staleRecord : ClusterNode :=
  { sampleRecord with
    ObjectMeta := { sampleRecord.ObjectMeta with Name := "clusternode-old" }
    Status := { sampleRecord.Status with Requested := some [("cpu", 250)] } }

/-- A store that lists two records of `node-1`, the stale one first. -/
def duplicateScript : Script :=
  { items := Except.ok [otherRecord, staleRecord, sampleRecord],
    cluster := Except.ok sampleCluster }

/-- A store whose listing fails. -/
def failingListScript : Script :=
  { items := Except.error "connection refused", cluster := Except.ok sampleCluster }

/-- A store whose cluster fetch fails. -/
def failingGetScript : Script :=
  { items := Except.ok [otherRecord, sampleRecord],
    cluster := Except.error "connection refused" }

/-- A store that rejects every delete. -/
def failingDeleteScript : Script :=
  { sampleScript with deleteErr := some "connection refused" }

/-- A store that lists only the record of `node-2` and serves the live cluster. -/
def unseenScript : Script :=
  { items := Except.ok [otherRecord], cluster := Except.ok sampleCluster }

/-- Whether a call writes to the record store. -/
def Call.isWrite : Call → Bool
  | Call.create _ => true
  | Call.update _ => true
  | Call.delete _ => true
  | Call.list => false
  | Call.get _ => false

/-- The sequential store `sampleStore` with the cluster in removal. -/
def removingSampleStore : RecordStore :=
  { sampleStore with clusters := [removingCluster] }

/-- The sequential store `sampleStore` with no cluster record at all. -/
def orphanStore : RecordStore :=
  { sampleStore with clusters := [] }

open NodeSyncer

/-! ## Lemmas on the lookup -/

theorem getClusterNode_calls {σ : Type} (n : NodeSyncer σ) (nodeName : String)
    (w : World σ) : (n.getClusterNode nodeName w).2.calls = w.calls ++ [Call.list] := by
  unfold getClusterNode
  split <;> simp [World.calls, World.record]

theorem getClusterNode_log_of_ok {σ : Type} {n : NodeSyncer σ} {nodeName : String}
    {s : σ} {r : Option ClusterNode} {w1 : World σ}
    (h : n.getClusterNode nodeName { store := s, log := [] } = (Except.ok r, w1)) :
    w1.log = [{ call := Call.list, failure := none }] := by
  unfold getClusterNode at h
  split at h
  · simp at h
  · simp only [Prod.mk.injEq, Except.ok.injEq] at h
    rw [← h.2]
    rfl

theorem findByNodeName_eq_none_iff (nodeName : String) (items : List ClusterNode) :
    findByNodeName nodeName items = none ↔ ∀ x ∈ items, x.NodeName ≠ nodeName := by
  induction items with
  | nil => simp [findByNodeName]
  | cons a rest ih =>
    by_cases h : a.NodeName = nodeName
    · simp [findByNodeName, h]
    · simp [findByNodeName, h, ih]

theorem findByNodeName_append_of_match (nodeName : String) (pre post : List ClusterNode)
    (r : ClusterNode) (hr : r.NodeName = nodeName)
    (hpre : ∀ x ∈ pre, x.NodeName ≠ nodeName) :
    findByNodeName nodeName (pre ++ r :: post) = some r := by
  induction pre with
  | nil => simp [findByNodeName, hr]
  | cons a rest ih =>
    have ha : a.NodeName ≠ nodeName := hpre a (List.mem_cons_self a rest)
    have hrest : ∀ x ∈ rest, x.NodeName ≠ nodeName :=
      fun x hx => hpre x (List.mem_cons_of_mem a hx)
    simp [findByNodeName, ha, ih hrest]

theorem findByNodeName_eq_some_iff (nodeName : String) (items : List ClusterNode)
    (r : ClusterNode) :
    findByNodeName nodeName items = some r ↔
      ∃ pre post, items = pre ++ r :: post ∧ r.NodeName = nodeName ∧
        ∀ x ∈ pre, x.NodeName ≠ nodeName := by
  constructor
  · intro h
    induction items with
    | nil => simp [findByNodeName] at h
    | cons a rest ih =>
      by_cases ha : a.NodeName = nodeName
      · simp only [findByNodeName, ha, if_true, Option.some.injEq] at h
        subst h
        exact ⟨[], rest, rfl, ha, by simp⟩
      · simp only [findByNodeName, ha, if_false] at h
        obtain ⟨pre, post, hq, hr, hpre⟩ := ih h
        refine ⟨a :: pre, post, by simp [hq], hr, ?_⟩
        intro x hx
        rcases List.mem_cons.mp hx with hxa | hxp
        · exact hxa ▸ ha
        · exact hpre x hxp
  · rintro ⟨pre, post, rfl, hr, hpre⟩
    exact findByNodeName_append_of_match nodeName pre post r hr hpre

theorem findByNodeName_some_mem {nodeName : String} {items : List ClusterNode}
    {r : ClusterNode} (h : findByNodeName nodeName items = some r) :
    r ∈ items ∧ r.NodeName = nodeName := by
  obtain ⟨pre, post, rfl, hr, _⟩ := (findByNodeName_eq_some_iff nodeName items r).mp h
  exact ⟨by simp, hr⟩

theorem getClusterNode_of_list_ok {σ : Type} (n : NodeSyncer σ) (nodeName : String)
    (w : World σ) (items : List ClusterNode) (s1 : σ)
    (hlist : n.ClusterNodes.List w.store = (Except.ok items, s1)) :
    n.getClusterNode nodeName w
      = (Except.ok (findByNodeName nodeName items), w.record Call.list none s1) := by
  simp [getClusterNode, hlist]

theorem getClusterNode_of_list_error {σ : Type} (n : NodeSyncer σ) (nodeName : String)
    (w : World σ) (e : String) (s1 : σ)
    (hlist : n.ClusterNodes.List w.store = (Except.error e, s1)) :
    n.getClusterNode nodeName w = (Except.error e, w.record Call.list (some e) s1) := by
  simp [getClusterNode, hlist]

/-! ## The paths of `sync`, unfolded -/

theorem sync_known_eq {σ : Type} (n : NodeSyncer σ) (key : String)
    (node : Node) (s : σ) (E : ClusterNode) (w1 : World σ) (c : Cluster) (s2 : σ)
    (hfind : n.getClusterNode node.ObjectMeta.Name { store := s, log := [] }
      = (Except.ok (some E), w1))
    (hget : n.Clusters.Get n.clusterName w1.store = (Except.ok c, s2))
    (hlive : c.ObjectMeta.DeletionTimestamp = none) :
    n.sync key (some node) s =
      match n.ClusterNodes.Update (updatePayload n node c E) s2 with
      | (Except.error err, s3) =>
        (some ("Failed to update cluster node [" ++ node.ObjectMeta.Name ++ "] " ++ err),
          { store := s3,
            log := [{ call := Call.list, failure := none },
                    { call := Call.get n.clusterName, failure := none },
                    { call := Call.update (updatePayload n node c E), failure := some err }] })
      | (Except.ok _, s3) =>
        (none,
          { store := s3,
            log := [{ call := Call.list, failure := none },
                    { call := Call.get n.clusterName, failure := none },
                    { call := Call.update (updatePayload n node c E), failure := none }] }) := by
  have hc := getClusterNode_log_of_ok hfind
  simp only [sync, createOrUpdateClusterNode, hfind, hget, convertNodeToClusterNode, hlive,
    World.record, hc, ne_eq, not_true_eq_false, if_false, updatePayload]
  rfl

theorem sync_unseen_eq {σ : Type} (n : NodeSyncer σ) (key : String)
    (node : Node) (s : σ) (w1 : World σ) (c : Cluster) (s2 : σ)
    (hfind : n.getClusterNode node.ObjectMeta.Name { store := s, log := [] }
      = (Except.ok none, w1))
    (hget : n.Clusters.Get n.clusterName w1.store = (Except.ok c, s2))
    (hlive : c.ObjectMeta.DeletionTimestamp = none) :
    n.sync key (some node) s =
      match n.ClusterNodes.Create (createPayload n node c) s2 with
      | (Except.error err, s3) =>
        (some ("Failed to create cluster node [" ++ node.ObjectMeta.Name ++ "] " ++ err),
          { store := s3,
            log := [{ call := Call.list, failure := none },
                    { call := Call.get n.clusterName, failure := none },
                    { call := Call.create (createPayload n node c), failure := some err }] })
      | (Except.ok _, s3) =>
        (none,
          { store := s3,
            log := [{ call := Call.list, failure := none },
                    { call := Call.get n.clusterName, failure := none },
                    { call := Call.create (createPayload n node c), failure := none }] }) := by
  have hc := getClusterNode_log_of_ok hfind
  simp only [sync, createOrUpdateClusterNode, hfind, hget, convertNodeToClusterNode, hlive,
    World.record, hc, ne_eq, not_true_eq_false, if_false, createPayload]
  rfl

theorem sync_removing_eq {σ : Type} (n : NodeSyncer σ) (key : String)
    (node : Node) (s : σ) (existing : Option ClusterNode) (w1 : World σ) (c : Cluster)
    (s2 : σ)
    (hfind : n.getClusterNode node.ObjectMeta.Name { store := s, log := [] }
      = (Except.ok existing, w1))
    (hget : n.Clusters.Get n.clusterName w1.store = (Except.ok c, s2))
    (hremoving : c.ObjectMeta.DeletionTimestamp ≠ none) :
    n.sync key (some node) s =
      (some ("Cluster [" ++ n.clusterName ++ "] in removing state"),
        { store := s2,
          log := [{ call := Call.list, failure := none },
                  { call := Call.get n.clusterName, failure := none }] }) := by
  have hc := getClusterNode_log_of_ok hfind
  simp [sync, createOrUpdateClusterNode, hfind, hget, convertNodeToClusterNode, hremoving,
    World.record, hc]

theorem sync_list_failed_eq {σ : Type} (n : NodeSyncer σ) (key : String)
    (node : Option Node) (s : σ) (e : String) (s1 : σ)
    (hlist : n.ClusterNodes.List s = (Except.error e, s1)) :
    n.sync key node s
      = (some e, { store := s1, log := [{ call := Call.list, failure := some e }] }) := by
  cases node <;>
    simp [sync, deleteClusterNode, createOrUpdateClusterNode, getClusterNode, hlist,
      World.record]

theorem sync_get_failed_eq {σ : Type} (n : NodeSyncer σ) (key : String)
    (node : Node) (s : σ) (existing : Option ClusterNode) (w1 : World σ) (e : String)
    (s2 : σ)
    (hfind : n.getClusterNode node.ObjectMeta.Name { store := s, log := [] }
      = (Except.ok existing, w1))
    (hget : n.Clusters.Get n.clusterName w1.store = (Except.error e, s2)) :
    n.sync key (some node) s =
      (some ("Failed to get cluster [" ++ n.clusterName ++ "] " ++ e),
        { store := s2,
          log := [{ call := Call.list, failure := none },
                  { call := Call.get n.clusterName, failure := some e }] }) := by
  have hc := getClusterNode_log_of_ok hfind
  simp [sync, createOrUpdateClusterNode, hfind, hget, World.record, hc]

theorem sync_absent_unseen_eq {σ : Type} (n : NodeSyncer σ) (key : String) (s : σ)
    (w1 : World σ)
    (hfind : n.getClusterNode key { store := s, log := [] } = (Except.ok none, w1)) :
    n.sync key none s
      = (none, { store := w1.store, log := [{ call := Call.list, failure := none }] }) := by
  have hc := getClusterNode_log_of_ok hfind
  simp only [sync, deleteClusterNode, hfind]
  rw [← hc]

theorem sync_absent_known_eq {σ : Type} (n : NodeSyncer σ) (key : String) (s : σ)
    (E : ClusterNode) (w1 : World σ)
    (hfind : n.getClusterNode key { store := s, log := [] } = (Except.ok (some E), w1)) :
    n.sync key none s =
      match n.ClusterNodes.Delete E.ObjectMeta.Name w1.store with
      | (some err, s2) =>
        (some ("Failed to delete cluster node [" ++ key ++ "] " ++ err),
          { store := s2,
            log := [{ call := Call.list, failure := none },
                    { call := Call.delete E.ObjectMeta.Name, failure := some err }] })
      | (none, s2) =>
        (none,
          { store := s2,
            log := [{ call := Call.list, failure := none },
                    { call := Call.delete E.ObjectMeta.Name, failure := none }] }) := by
  have hc := getClusterNode_log_of_ok hfind
  simp only [sync, deleteClusterNode, hfind, World.record, hc]
  rfl

/-! ## Accounting fields on update -/

/-- Claim C1 (accounting-field preservation).  When the lookup finds an existing
record `E` for the node and the cluster fetch succeeds, every record that `sync`
submits to `Update` carries `E`'s `Status.Requested` and `Status.Limits`
unchanged, and the node's spec and status as `NodeSpec` and `Status.NodeStatus`;
and such a record is submitted as soon as the cluster is not marked for
deletion. -/
theorem sync_update_keeps_accounting {σ : Type} (n : NodeSyncer σ) (key : String)
    (node : Node) (s : σ) (E : ClusterNode) (w1 : World σ) (c : Cluster) (s2 : σ)
    (hfind : n.getClusterNode node.ObjectMeta.Name { store := s, log := [] }
      = (Except.ok (some E), w1))
    (hget : n.Clusters.Get n.clusterName w1.store = (Except.ok c, s2)) :
    (∀ obj, Call.update obj ∈ (n.sync key (some node) s).2.calls →
      obj.Status.Requested = E.Status.Requested ∧ obj.Status.Limits = E.Status.Limits ∧
      obj.NodeSpec = node.Spec ∧ obj.Status.NodeStatus = node.Status) ∧
    (c.ObjectMeta.DeletionTimestamp = none →
      ∃ obj, (n.sync key (some node) s).2.calls
        = [Call.list, Call.get n.clusterName, Call.update obj]) := by
  have hc := getClusterNode_log_of_ok hfind
  simp only [sync, createOrUpdateClusterNode, hfind, hget, convertNodeToClusterNode]
  cases hd : c.ObjectMeta.DeletionTimestamp with
  | some t => simp [World.record, World.calls, hc]
  | none =>
    simp only [World.record, World.calls, hc, ne_eq, not_true_eq_false, if_false,
      true_implies]
    constructor
    · intro obj
      split <;> (simp; rintro rfl; simp)
    · split <;> exact ⟨_, rfl⟩

/-- Worked instance of C1: a record with `cpu`/`memory` accounting written by
another controller is reconciled with a changed observation of `node-1`. -/
theorem sync_update_keeps_accounting_witness :
    ((sampleScript.syncer "local").getClusterNode sampleNode.ObjectMeta.Name
        { store := (), log := [] }
      = (Except.ok (some sampleRecord),
          { store := (), log := [{ call := Call.list, failure := none }] })) ∧
    ((sampleScript.syncer "local").Clusters.Get "local" () = (Except.ok sampleCluster, ())) ∧
    ((∀ obj, Call.update obj ∈
        ((sampleScript.syncer "local").sync "node-1" (some sampleNode) ()).2.calls →
      obj.Status.Requested = sampleRecord.Status.Requested ∧
      obj.Status.Limits = sampleRecord.Status.Limits ∧
      obj.NodeSpec = sampleNode.Spec ∧ obj.Status.NodeStatus = sampleNode.Status) ∧
    (sampleCluster.ObjectMeta.DeletionTimestamp = none →
      ∃ obj, ((sampleScript.syncer "local").sync "node-1" (some sampleNode) ()).2.calls
        = [Call.list, Call.get "local", Call.update obj])) :=
  ⟨rfl, rfl,
    sync_update_keeps_accounting (sampleScript.syncer "local") "node-1" sampleNode ()
      sampleRecord { store := (), log := [{ call := Call.list, failure := none }] }
      sampleCluster () rfl rfl⟩

/-! ## The UPDATE row of the convergence table -/

/-- Claim C2 as stated fails: with a record for `node-1` in the store, a listing
and a cluster fetch that both succeed, but a cluster marked for deletion, `sync`
returns an error and submits no update; with the live cluster and the same
store it submits one.  So the action does not depend on the pair (record
exists, observation present) alone. -/
theorem sync_update_row_counterexample :
    (removingScript.syncer "local").getClusterNode "node-1" { store := (), log := [] }
      = (Except.ok (some sampleRecord),
          { store := (), log := [{ call := Call.list, failure := none }] }) ∧
    (removingScript.syncer "local").Clusters.Get "local" ()
      = (Except.ok removingCluster, ()) ∧
    (removingScript.syncer "local").sync "node-1" (some sampleNode) ()
      = (some "Cluster [local] in removing state",
          { store := (),
            log := [{ call := Call.list, failure := none },
                    { call := Call.get "local", failure := none }] }) ∧
    ((sampleScript.syncer "local").sync "node-1" (some sampleNode) ()).2.calls
      = [Call.list, Call.get "local", Call.update sampleUpdate] := by
  refine ⟨rfl, rfl, ?_, ?_⟩ <;> decide

/-- Claim C2, amended (UPDATE row).  When the lookup finds a record `E` for the
node, the cluster fetch succeeds and the cluster is not marked for deletion,
`sync` issues exactly the calls list, get, update (one update, no create, no
delete); the update is addressed to `E`'s name; `sync` returns no error when
the store accepts the update and the wrapped store error when it does not. -/
theorem sync_updates_known_node {σ : Type} (n : NodeSyncer σ) (key : String)
    (node : Node) (s : σ) (E : ClusterNode) (w1 : World σ) (c : Cluster) (s2 : σ)
    (hfind : n.getClusterNode node.ObjectMeta.Name { store := s, log := [] }
      = (Except.ok (some E), w1))
    (hget : n.Clusters.Get n.clusterName w1.store = (Except.ok c, s2))
    (hlive : c.ObjectMeta.DeletionTimestamp = none) :
    ∃ obj, obj.ObjectMeta.Name = E.ObjectMeta.Name ∧
      obj.NodeName = node.ObjectMeta.Name ∧
      (n.sync key (some node) s).2.calls
        = [Call.list, Call.get n.clusterName, Call.update obj] ∧
      (∀ r s3, n.ClusterNodes.Update obj s2 = (Except.ok r, s3) →
        (n.sync key (some node) s).1 = none ∧ (n.sync key (some node) s).2.store = s3) ∧
      (∀ e s3, n.ClusterNodes.Update obj s2 = (Except.error e, s3) →
        (n.sync key (some node) s).1
          = some ("Failed to update cluster node [" ++ node.ObjectMeta.Name ++ "] " ++ e) ∧
        (n.sync key (some node) s).2.store = s3) := by
  refine ⟨updatePayload n node c E, rfl, rfl, ?_, ?_, ?_⟩
  all_goals rw [sync_known_eq n key node s E w1 c s2 hfind hget hlive]
  · split <;> rfl
  · intro r s3 h
    simp [h]
  · intro e s3 h
    simp [h]

/-- Worked instance of C2 (amended): `node-1` is known and the cluster is live. -/
theorem sync_updates_known_node_witness :
    ((sampleScript.syncer "local").getClusterNode sampleNode.ObjectMeta.Name
        { store := (), log := [] }
      = (Except.ok (some sampleRecord),
          { store := (), log := [{ call := Call.list, failure := none }] })) ∧
    ((sampleScript.syncer "local").Clusters.Get "local" () = (Except.ok sampleCluster, ())) ∧
    sampleCluster.ObjectMeta.DeletionTimestamp = none ∧
    ∃ obj, obj.ObjectMeta.Name = sampleRecord.ObjectMeta.Name ∧
      obj.NodeName = sampleNode.ObjectMeta.Name ∧
      ((sampleScript.syncer "local").sync "node-1" (some sampleNode) ()).2.calls
        = [Call.list, Call.get "local", Call.update obj] ∧
      (∀ r s3, (sampleScript.syncer "local").ClusterNodes.Update obj () = (Except.ok r, s3) →
        ((sampleScript.syncer "local").sync "node-1" (some sampleNode) ()).1 = none ∧
        ((sampleScript.syncer "local").sync "node-1" (some sampleNode) ()).2.store = s3) ∧
      (∀ e s3, (sampleScript.syncer "local").ClusterNodes.Update obj () = (Except.error e, s3) →
        ((sampleScript.syncer "local").sync "node-1" (some sampleNode) ()).1
          = some ("Failed to update cluster node [" ++ sampleNode.ObjectMeta.Name ++ "] " ++ e) ∧
        ((sampleScript.syncer "local").sync "node-1" (some sampleNode) ()).2.store = s3) :=
  ⟨rfl, rfl, rfl,
    sync_updates_known_node (sampleScript.syncer "local") "node-1" sampleNode ()
      sampleRecord { store := (), log := [{ call := Call.list, failure := none }] }
      sampleCluster () rfl rfl rfl⟩

/-! ## The deletion guard -/

/-- Claim C3 (deletion guard).  When the lookup finds no record for the node and
the fetched cluster has its deletion timestamp set, `sync` returns the error
"Cluster [..] in removing state", its only calls are the listing and the
cluster fetch (no create, update or delete), and the store is in the state the
cluster fetch left it in. -/
theorem sync_refuses_create_when_cluster_removing {σ : Type} (n : NodeSyncer σ)
    (key : String) (node : Node) (s : σ) (w1 : World σ) (c : Cluster) (s2 : σ)
    (hfind : n.getClusterNode node.ObjectMeta.Name { store := s, log := [] }
      = (Except.ok none, w1))
    (hget : n.Clusters.Get n.clusterName w1.store = (Except.ok c, s2))
    (hremoving : c.ObjectMeta.DeletionTimestamp ≠ none) :
    (n.sync key (some node) s).1
      = some ("Cluster [" ++ n.clusterName ++ "] in removing state") ∧
    (n.sync key (some node) s).2.calls = [Call.list, Call.get n.clusterName] ∧
    (n.sync key (some node) s).2.store = s2 := by
  rw [sync_removing_eq n key node s none w1 c s2 hfind hget hremoving]
  exact ⟨rfl, rfl, rfl⟩

/-- Worked instance of C3 on the sequential store: `node-1` is unseen, the
cluster is being removed, and the stored records are the same afterwards. -/
theorem sync_refuses_create_when_cluster_removing_witness :
    ((storeSyncer "local").getClusterNode sampleNode.ObjectMeta.Name
        { store := removingStore, log := [] }
      = (Except.ok none,
          { store := removingStore, log := [{ call := Call.list, failure := none }] })) ∧
    ((storeSyncer "local").Clusters.Get "local" removingStore
      = (Except.ok removingCluster, removingStore)) ∧
    removingCluster.ObjectMeta.DeletionTimestamp ≠ none ∧
    (((storeSyncer "local").sync "node-1" (some sampleNode) removingStore).1
      = some ("Cluster [" ++ "local" ++ "] in removing state") ∧
    ((storeSyncer "local").sync "node-1" (some sampleNode) removingStore).2.calls
      = [Call.list, Call.get "local"] ∧
    ((storeSyncer "local").sync "node-1" (some sampleNode) removingStore).2.store
      = removingStore) :=
  ⟨rfl, rfl, by decide,
    sync_refuses_create_when_cluster_removing (storeSyncer "local") "node-1" sampleNode
      removingStore { store := removingStore, log := [{ call := Call.list, failure := none }] }
      removingCluster removingStore rfl rfl (by decide)⟩

/-! ## Lookup -/

/-- Claim C10 (lookup).  When the listing succeeds with `items`, `getClusterNode`
returns no error; it returns record `r` exactly when `r` is the first item, in
listing order, whose `NodeName` equals the identity looked up; and it returns
the absent value exactly when no listed item has that `NodeName`. -/
theorem getClusterNode_returns_first_match {σ : Type} (n : NodeSyncer σ)
    (nodeName : String) (w : World σ) (items : List ClusterNode) (s1 : σ)
    (hlist : n.ClusterNodes.List w.store = (Except.ok items, s1)) :
    (∃ r, (n.getClusterNode nodeName w).1 = Except.ok r) ∧
    (∀ r, (n.getClusterNode nodeName w).1 = Except.ok (some r) ↔
      ∃ pre post, items = pre ++ r :: post ∧ r.NodeName = nodeName ∧
        ∀ x ∈ pre, x.NodeName ≠ nodeName) ∧
    ((n.getClusterNode nodeName w).1 = Except.ok none ↔
      ∀ x ∈ items, x.NodeName ≠ nodeName) := by
  rw [getClusterNode_of_list_ok n nodeName w items s1 hlist]
  refine ⟨⟨_, rfl⟩, ?_, ?_⟩
  · intro r
    simp only [Except.ok.injEq]
    exact findByNodeName_eq_some_iff nodeName items r
  · simp only [Except.ok.injEq]
    exact findByNodeName_eq_none_iff nodeName items

/-- Worked instance of C10: two listed records, the second one is `node-1`; no
record of `node-3`; and, of two listed records of `node-1`, the first. -/
theorem getClusterNode_returns_first_match_witness :
    ((sampleScript.syncer "local").ClusterNodes.List ()
      = (Except.ok [otherRecord, sampleRecord], ())) ∧
    ((∃ r, ((sampleScript.syncer "local").getClusterNode "node-1"
        { store := (), log := [] }).1 = Except.ok r) ∧
    (∀ r, ((sampleScript.syncer "local").getClusterNode "node-1"
        { store := (), log := [] }).1 = Except.ok (some r) ↔
      ∃ pre post, [otherRecord, sampleRecord] = pre ++ r :: post ∧ r.NodeName = "node-1" ∧
        ∀ x ∈ pre, x.NodeName ≠ "node-1") ∧
    (((sampleScript.syncer "local").getClusterNode "node-1"
        { store := (), log := [] }).1 = Except.ok none ↔
      ∀ x ∈ [otherRecord, sampleRecord], x.NodeName ≠ "node-1")) ∧
    ((sampleScript.syncer "local").getClusterNode "node-1" { store := (), log := [] }).1
      = Except.ok (some sampleRecord) ∧
    ((sampleScript.syncer "local").getClusterNode "node-3" { store := (), log := [] }).1
      = Except.ok none ∧
    ((duplicateScript.syncer "local").getClusterNode "node-1" { store := (), log := [] }).1
      = Except.ok (some staleRecord) :=
  ⟨rfl,
    getClusterNode_returns_first_match (sampleScript.syncer "local") "node-1"
      { store := (), log := [] } [otherRecord, sampleRecord] () rfl,
    rfl, rfl, rfl⟩

/-! ## Labels and annotations -/

/-- Claim C7 (label/annotation overwrite).  When the lookup finds an existing
record `E` (whatever its labels and annotations) and the cluster fetch
succeeds, every record `sync` submits to `Update` has exactly the node's
labels and the node's annotations, so nothing of `E`'s survives; and such a
record is submitted as soon as the cluster is not marked for deletion. -/
theorem sync_update_overwrites_labels {σ : Type} (n : NodeSyncer σ) (key : String)
    (node : Node) (s : σ) (E : ClusterNode) (w1 : World σ) (c : Cluster) (s2 : σ)
    (hfind : n.getClusterNode node.ObjectMeta.Name { store := s, log := [] }
      = (Except.ok (some E), w1))
    (hget : n.Clusters.Get n.clusterName w1.store = (Except.ok c, s2)) :
    (∀ obj, Call.update obj ∈ (n.sync key (some node) s).2.calls →
      obj.ObjectMeta.Labels = node.ObjectMeta.Labels ∧
      obj.ObjectMeta.Annotations = node.ObjectMeta.Annotations) ∧
    (c.ObjectMeta.DeletionTimestamp = none →
      ∃ obj, (n.sync key (some node) s).2.calls
        = [Call.list, Call.get n.clusterName, Call.update obj]) := by
  by_cases hd : c.ObjectMeta.DeletionTimestamp = none
  · rw [sync_known_eq n key node s E w1 c s2 hfind hget hd]
    constructor
    · intro obj
      split <;> (simp [World.calls]; rintro rfl; exact ⟨rfl, rfl⟩)
    · intro _
      split <;> exact ⟨_, rfl⟩
  · rw [sync_removing_eq n key node s (some E) w1 c s2 hfind hget hd]
    exact ⟨by simp [World.calls], fun h => absurd h hd⟩

/-- Worked instance of C7: the stored record has labels `a=1`, the observation
has labels `b=2`, and the submitted record has labels `b=2` only. -/
theorem sync_update_overwrites_labels_witness :
    ((sampleScript.syncer "local").getClusterNode sampleNode.ObjectMeta.Name
        { store := (), log := [] }
      = (Except.ok (some sampleRecord),
          { store := (), log := [{ call := Call.list, failure := none }] })) ∧
    ((sampleScript.syncer "local").Clusters.Get "local" () = (Except.ok sampleCluster, ())) ∧
    ((∀ obj, Call.update obj ∈
        ((sampleScript.syncer "local").sync "node-1" (some sampleNode) ()).2.calls →
      obj.ObjectMeta.Labels = sampleNode.ObjectMeta.Labels ∧
      obj.ObjectMeta.Annotations = sampleNode.ObjectMeta.Annotations) ∧
    (sampleCluster.ObjectMeta.DeletionTimestamp = none →
      ∃ obj, ((sampleScript.syncer "local").sync "node-1" (some sampleNode) ()).2.calls
        = [Call.list, Call.get "local", Call.update obj])) ∧
    sampleRecord.ObjectMeta.Labels = some [("a", "1")] ∧
    ((sampleScript.syncer "local").sync "node-1" (some sampleNode) ()).2.calls
      = [Call.list, Call.get "local", Call.update sampleUpdate] ∧
    sampleUpdate.ObjectMeta.Labels = some [("b", "2")] :=
  ⟨rfl, rfl,
    sync_update_overwrites_labels (sampleScript.syncer "local") "node-1" sampleNode ()
      sampleRecord { store := (), log := [{ call := Call.list, failure := none }] }
      sampleCluster () rfl rfl,
    rfl, by decide, rfl⟩

/-! ## Owner reference -/

/-- Claim C6 as stated fails in its second half: `node-1` is created under the
cluster with identifier `c-uid-1`; the cluster is then deleted and created
again under the same name; the next `sync` updates the same record and its
payload carries the owner reference of the new cluster, `c-uid-2`, not the one
the record was created with. -/
theorem sync_owner_reference_counterexample :
    ((storeSyncer "local").sync "node-1" (some sampleNode) emptyStore).2.calls
      = [Call.list, Call.get "local", Call.create sampleCreate] ∧
    createdStore.items.map (fun r => (nameOf r, r.ObjectMeta.OwnerReferences))
      = [("clusternode-x",
          [{ APIVersion := "cluster.cattle.io/v1", Kind := "Cluster", Name := "local",
             UID := "c-uid-1" }])] ∧
    ((storeSyncer "local").sync "node-1" (some sampleNode) recreatedStore).1 = none ∧
    ((storeSyncer "local").sync "node-1" (some sampleNode) recreatedStore).2.calls
      = [Call.list, Call.get "local", Call.update recreatedUpdate] ∧
    recreatedUpdate.ObjectMeta.Name = "clusternode-x" ∧
    recreatedUpdate.ObjectMeta.OwnerReferences
      = [{ APIVersion := "cluster.cattle.io/v1", Kind := "Cluster", Name := "local",
           UID := "c-uid-2" }] ∧
    recreatedUpdate.ObjectMeta.OwnerReferences ≠ sampleCreate.ObjectMeta.OwnerReferences := by
  refine ⟨?_, ?_, ?_, ?_, rfl, rfl, ?_⟩ <;> decide

/-- Claim C6, amended (ownership linkage).  When the lookup and the cluster
fetch succeed, every record `sync` submits, to `Create` or to `Update`, carries
exactly one owner reference: its name is the reconciler's cluster name and its
UID, API version and kind are those of the cluster record fetched by this very
call.  An update therefore keeps the owner reference of the existing record
`E` whenever `E`'s reference was built from a cluster with the same UID, API
version and kind.  A record is submitted as soon as the cluster is not marked
for deletion. -/
theorem sync_owner_reference_from_fetched_cluster {σ : Type} (n : NodeSyncer σ)
    (key : String) (node : Node) (s : σ) (existing : Option ClusterNode) (w1 : World σ)
    (c : Cluster) (s2 : σ)
    (hfind : n.getClusterNode node.ObjectMeta.Name { store := s, log := [] }
      = (Except.ok existing, w1))
    (hget : n.Clusters.Get n.clusterName w1.store = (Except.ok c, s2)) :
    (∀ obj, Call.create obj ∈ (n.sync key (some node) s).2.calls ∨
        Call.update obj ∈ (n.sync key (some node) s).2.calls →
      obj.ObjectMeta.OwnerReferences
        = [{ APIVersion := c.TypeMeta.APIVersion, Kind := c.TypeMeta.Kind,
             Name := n.clusterName, UID := c.ObjectMeta.UID }]) ∧
    (∀ (obj E : ClusterNode) (c0 : Cluster), existing = some E →
      Call.update obj ∈ (n.sync key (some node) s).2.calls →
      E.ObjectMeta.OwnerReferences
        = [{ APIVersion := c0.TypeMeta.APIVersion, Kind := c0.TypeMeta.Kind,
             Name := n.clusterName, UID := c0.ObjectMeta.UID }] →
      c0.ObjectMeta.UID = c.ObjectMeta.UID → c0.TypeMeta = c.TypeMeta →
      obj.ObjectMeta.OwnerReferences = E.ObjectMeta.OwnerReferences) ∧
    (c.ObjectMeta.DeletionTimestamp = none →
      (existing = none → ∃ obj, (n.sync key (some node) s).2.calls
        = [Call.list, Call.get n.clusterName, Call.create obj]) ∧
      (existing ≠ none → ∃ obj, (n.sync key (some node) s).2.calls
        = [Call.list, Call.get n.clusterName, Call.update obj])) := by
  have key_fact : ∀ obj, Call.create obj ∈ (n.sync key (some node) s).2.calls ∨
        Call.update obj ∈ (n.sync key (some node) s).2.calls →
      obj.ObjectMeta.OwnerReferences
        = [{ APIVersion := c.TypeMeta.APIVersion, Kind := c.TypeMeta.Kind,
             Name := n.clusterName, UID := c.ObjectMeta.UID }] := by
    by_cases hd : c.ObjectMeta.DeletionTimestamp = none
    · cases existing with
      | none =>
        rw [sync_unseen_eq n key node s w1 c s2 hfind hget hd]
        intro obj
        split <;> (simp [World.calls]; rintro rfl; rfl)
      | some E =>
        rw [sync_known_eq n key node s E w1 c s2 hfind hget hd]
        intro obj
        split <;> (simp [World.calls]; rintro rfl; rfl)
    · rw [sync_removing_eq n key node s existing w1 c s2 hfind hget hd]
      simp [World.calls]
  refine ⟨key_fact, ?_, ?_⟩
  · intro obj E c0 _ hobj hE huid htm
    rw [key_fact obj (Or.inr hobj), hE, huid, htm]
  · intro hd
    constructor
    · rintro rfl
      rw [sync_unseen_eq n key node s w1 c s2 hfind hget hd]
      split <;> exact ⟨_, rfl⟩
    · intro hne
      cases existing with
      | none => exact absurd rfl hne
      | some E =>
        rw [sync_known_eq n key node s E w1 c s2 hfind hget hd]
        split <;> exact ⟨_, rfl⟩

/-- Worked instance of C6 (amended): `node-1` is known, the cluster is live. -/
theorem sync_owner_reference_from_fetched_cluster_witness :
    ((sampleScript.syncer "local").getClusterNode sampleNode.ObjectMeta.Name
        { store := (), log := [] }
      = (Except.ok (some sampleRecord),
          { store := (), log := [{ call := Call.list, failure := none }] })) ∧
    ((sampleScript.syncer "local").Clusters.Get "local" () = (Except.ok sampleCluster, ())) ∧
    ((∀ obj, Call.create obj ∈
          ((sampleScript.syncer "local").sync "node-1" (some sampleNode) ()).2.calls ∨
        Call.update obj ∈
          ((sampleScript.syncer "local").sync "node-1" (some sampleNode) ()).2.calls →
      obj.ObjectMeta.OwnerReferences
        = [{ APIVersion := sampleCluster.TypeMeta.APIVersion,
             Kind := sampleCluster.TypeMeta.Kind,
             Name := "local", UID := sampleCluster.ObjectMeta.UID }]) ∧
    (∀ (obj E : ClusterNode) (c0 : Cluster), some sampleRecord = some E →
      Call.update obj ∈
        ((sampleScript.syncer "local").sync "node-1" (some sampleNode) ()).2.calls →
      E.ObjectMeta.OwnerReferences
        = [{ APIVersion := c0.TypeMeta.APIVersion, Kind := c0.TypeMeta.Kind,
             Name := "local", UID := c0.ObjectMeta.UID }] →
      c0.ObjectMeta.UID = sampleCluster.ObjectMeta.UID →
      c0.TypeMeta = sampleCluster.TypeMeta →
      obj.ObjectMeta.OwnerReferences = E.ObjectMeta.OwnerReferences) ∧
    (sampleCluster.ObjectMeta.DeletionTimestamp = none →
      (some sampleRecord = none →
        ∃ obj, ((sampleScript.syncer "local").sync "node-1" (some sampleNode) ()).2.calls
          = [Call.list, Call.get "local", Call.create obj]) ∧
      (some sampleRecord ≠ none →
        ∃ obj, ((sampleScript.syncer "local").sync "node-1" (some sampleNode) ()).2.calls
          = [Call.list, Call.get "local", Call.update obj]))) :=
  ⟨rfl, rfl,
    sync_owner_reference_from_fetched_cluster (sampleScript.syncer "local") "node-1"
      sampleNode () (some sampleRecord)
      { store := (), log := [{ call := Call.list, failure := none }] }
      sampleCluster () rfl rfl⟩

/-! ## Store failures -/

theorem failed_exchange_is_last (l pre post : List Exchange) (x y : Exchange) (e : String)
    (hl : ∀ z ∈ l, z.failure = none) (h : l ++ [y] = pre ++ x :: post)
    (hf : x.failure = some e) : post = [] ∧ x = y := by
  induction l generalizing pre with
  | nil =>
    cases pre with
    | nil =>
      simp only [List.nil_append, List.cons.injEq] at h
      exact ⟨h.2.symm, h.1.symm⟩
    | cons p pre => simp at h
  | cons a l ih =>
    cases pre with
    | nil =>
      simp only [List.cons_append, List.nil_append, List.cons.injEq] at h
      have := hl a (List.mem_cons_self a l)
      rw [h.1, hf] at this
      cases this
    | cons p pre =>
      simp only [List.cons_append, List.cons.injEq] at h
      exact ih pre (fun z hz => hl z (List.mem_cons_of_mem a hz)) h.2

theorem no_failed_exchange (l pre post : List Exchange) (x : Exchange) (e : String)
    (hl : ∀ z ∈ l, z.failure = none) (h : l = pre ++ x :: post)
    (hf : x.failure = some e) : False := by
  have := hl x (by rw [h]; simp)
  rw [hf] at this
  cases this

/-- Claim C9, amended (store-failure reporting).  Whenever an exchange with the
store in the log of `sync` failed with error `e`, it is the last exchange (no
store call follows the failing one), and the error `sync` returns is: `e`
itself, unwrapped, for a failed listing; "Failed to get cluster [cluster name]
e" for a failed cluster fetch; "Failed to create cluster node [node name] e"
and "Failed to update cluster node [node name] e" for a failed create or
update, with the observation's name; and "Failed to delete cluster node [key]
e" for a failed delete, with the delivered key. -/
theorem sync_failed_call_is_last_and_reported {σ : Type} (n : NodeSyncer σ)
    (key : String) (node : Option Node) (s : σ) (pre post : List Exchange)
    (x : Exchange) (e : String)
    (hlog : (n.sync key node s).2.log = pre ++ x :: post)
    (hfail : x.failure = some e) :
    post = [] ∧
    ((x.call = Call.list ∧ (n.sync key node s).1 = some e) ∨
     (x.call = Call.get n.clusterName ∧
        (n.sync key node s).1
          = some ("Failed to get cluster [" ++ n.clusterName ++ "] " ++ e)) ∨
     (∃ nd obj, node = some nd ∧ x.call = Call.create obj ∧
        (n.sync key node s).1
          = some ("Failed to create cluster node [" ++ nd.ObjectMeta.Name ++ "] " ++ e)) ∨
     (∃ nd obj, node = some nd ∧ x.call = Call.update obj ∧
        (n.sync key node s).1
          = some ("Failed to update cluster node [" ++ nd.ObjectMeta.Name ++ "] " ++ e)) ∨
     (∃ name, node = none ∧ x.call = Call.delete name ∧
        (n.sync key node s).1
          = some ("Failed to delete cluster node [" ++ key ++ "] " ++ e))) := by
  cases hl : n.ClusterNodes.List s with
  | mk r s1 =>
  cases r with
  | error e1 =>
    rw [sync_list_failed_eq n key node s e1 s1 hl] at hlog ⊢
    obtain ⟨hp, hx⟩ := failed_exchange_is_last [] pre post x _ e (by simp) hlog hfail
    subst hx
    simp only [Option.some.injEq] at hfail
    subst hfail
    exact ⟨hp, Or.inl ⟨rfl, rfl⟩⟩
  | ok items =>
    cases node with
    | none =>
      have hfind := getClusterNode_of_list_ok n key { store := s, log := [] } items s1 hl
      cases hf : findByNodeName key items with
      | none =>
        rw [hf] at hfind
        rw [sync_absent_unseen_eq n key s _ hfind] at hlog
        exact (no_failed_exchange _ pre post x e (by simp) hlog hfail).elim
      | some E =>
        rw [hf] at hfind
        rw [sync_absent_known_eq n key s E _ hfind] at hlog ⊢
        cases hdel : n.ClusterNodes.Delete E.ObjectMeta.Name
            (World.record { store := s, log := [] } Call.list none s1).store with
        | mk d s2 =>
        cases d with
        | none =>
          simp only [hdel] at hlog
          exact (no_failed_exchange _ pre post x e (by simp) hlog hfail).elim
        | some e2 =>
          simp only [hdel] at hlog ⊢
          obtain ⟨hp, hx⟩ := failed_exchange_is_last
            [{ call := Call.list, failure := none }] pre post x _ e (by simp) hlog hfail
          subst hx
          simp only [Option.some.injEq] at hfail
          subst hfail
          exact ⟨hp, Or.inr (Or.inr (Or.inr (Or.inr ⟨_, trivial, rfl, rfl⟩)))⟩
    | some nd =>
      have hfind := getClusterNode_of_list_ok n nd.ObjectMeta.Name
        { store := s, log := [] } items s1 hl
      cases hg : n.Clusters.Get n.clusterName
          (World.record { store := s, log := [] } Call.list none s1).store with
      | mk g s2 =>
      cases g with
      | error e2 =>
        rw [sync_get_failed_eq n key nd s _ _ e2 s2 hfind hg] at hlog ⊢
        obtain ⟨hp, hx⟩ := failed_exchange_is_last
          [{ call := Call.list, failure := none }] pre post x _ e (by simp) hlog hfail
        subst hx
        simp only [Option.some.injEq] at hfail
        subst hfail
        exact ⟨hp, Or.inr (Or.inl ⟨rfl, rfl⟩)⟩
      | ok c =>
        by_cases hd : c.ObjectMeta.DeletionTimestamp = none
        · cases hf : findByNodeName nd.ObjectMeta.Name items with
          | none =>
            rw [hf] at hfind
            rw [sync_unseen_eq n key nd s _ c s2 hfind hg hd] at hlog ⊢
            cases hcr : n.ClusterNodes.Create (createPayload n nd c) s2 with
            | mk cr s3 =>
            cases cr with
            | ok _ =>
              simp only [hcr] at hlog
              exact (no_failed_exchange _ pre post x e (by simp) hlog hfail).elim
            | error e3 =>
              simp only [hcr] at hlog ⊢
              obtain ⟨hp, hx⟩ := failed_exchange_is_last
                [{ call := Call.list, failure := none },
                 { call := Call.get n.clusterName, failure := none }]
                pre post x _ e (by simp) hlog hfail
              subst hx
              simp only [Option.some.injEq] at hfail
              subst hfail
              exact ⟨hp, Or.inr (Or.inr (Or.inl ⟨nd, _, rfl, rfl, rfl⟩))⟩
          | some E =>
            rw [hf] at hfind
            rw [sync_known_eq n key nd s E _ c s2 hfind hg hd] at hlog ⊢
            cases hup : n.ClusterNodes.Update (updatePayload n nd c E) s2 with
            | mk up s3 =>
            cases up with
            | ok _ =>
              simp only [hup] at hlog
              exact (no_failed_exchange _ pre post x e (by simp) hlog hfail).elim
            | error e3 =>
              simp only [hup] at hlog ⊢
              obtain ⟨hp, hx⟩ := failed_exchange_is_last
                [{ call := Call.list, failure := none },
                 { call := Call.get n.clusterName, failure := none }]
                pre post x _ e (by simp) hlog hfail
              subst hx
              simp only [Option.some.injEq] at hfail
              subst hfail
              exact ⟨hp, Or.inr (Or.inr (Or.inr (Or.inl ⟨nd, _, rfl, rfl, rfl⟩)))⟩
        · rw [sync_removing_eq n key nd s _ _ c s2 hfind hg hd] at hlog
          exact (no_failed_exchange _ pre post x e (by simp) hlog hfail).elim

/-- Worked instance of C9 (amended): the delete of the record of `node-1` is
rejected by the store. -/
theorem sync_failed_call_is_last_and_reported_witness :
    (((failingDeleteScript.syncer "local").sync "node-1" none ()).2.log
      = [{ call := Call.list, failure := none }]
        ++ { call := Call.delete "clusternode-k4x9p", failure := some "connection refused" }
          :: []) ∧
    (({ call := Call.delete "clusternode-k4x9p", failure := some "connection refused" }
        : Exchange).failure = some "connection refused") ∧
    (([] : List Exchange) = [] ∧
    ((({ call := Call.delete "clusternode-k4x9p", failure := some "connection refused" }
          : Exchange).call = Call.list ∧
        ((failingDeleteScript.syncer "local").sync "node-1" none ()).1
          = some "connection refused") ∨
     (({ call := Call.delete "clusternode-k4x9p", failure := some "connection refused" }
          : Exchange).call = Call.get "local" ∧
        ((failingDeleteScript.syncer "local").sync "node-1" none ()).1
          = some ("Failed to get cluster [" ++ "local" ++ "] " ++ "connection refused")) ∨
     (∃ nd obj, (none : Option Node) = some nd ∧
        ({ call := Call.delete "clusternode-k4x9p", failure := some "connection refused" }
          : Exchange).call = Call.create obj ∧
        ((failingDeleteScript.syncer "local").sync "node-1" none ()).1
          = some ("Failed to create cluster node [" ++ nd.ObjectMeta.Name ++ "] "
              ++ "connection refused")) ∨
     (∃ nd obj, (none : Option Node) = some nd ∧
        ({ call := Call.delete "clusternode-k4x9p", failure := some "connection refused" }
          : Exchange).call = Call.update obj ∧
        ((failingDeleteScript.syncer "local").sync "node-1" none ()).1
          = some ("Failed to update cluster node [" ++ nd.ObjectMeta.Name ++ "] "
              ++ "connection refused")) ∨
     (∃ name, (none : Option Node) = none ∧
        ({ call := Call.delete "clusternode-k4x9p", failure := some "connection refused" }
          : Exchange).call = Call.delete name ∧
        ((failingDeleteScript.syncer "local").sync "node-1" none ()).1
          = some ("Failed to delete cluster node [" ++ "node-1" ++ "] "
              ++ "connection refused")))) ∧
    ((failingDeleteScript.syncer "local").sync "node-1" none ()).1
      = some "Failed to delete cluster node [node-1] connection refused" :=
  ⟨by decide, rfl,
    sync_failed_call_is_last_and_reported (failingDeleteScript.syncer "local") "node-1" none ()
      [{ call := Call.list, failure := none }] []
      { call := Call.delete "clusternode-k4x9p", failure := some "connection refused" }
      "connection refused" (by decide) rfl,
    by decide⟩

/-- Claim C9 as stated fails: a failed listing is returned as it came, and a
failed cluster fetch is wrapped with the cluster name; in neither case does the
error returned by `sync` for `node-1` contain the node identity. -/
theorem sync_store_failure_counterexample :
    (failingListScript.syncer "local").sync "node-1" (some sampleNode) ()
      = (some "connection refused",
          { store := (),
            log := [{ call := Call.list, failure := some "connection refused" }] }) ∧
    (failingListScript.syncer "local").sync "node-1" none ()
      = (some "connection refused",
          { store := (),
            log := [{ call := Call.list, failure := some "connection refused" }] }) ∧
    ¬ List.IsInfix "node-1".data "connection refused".data ∧
    (failingGetScript.syncer "local").sync "node-1" (some sampleNode) ()
      = (some "Failed to get cluster [local] connection refused",
          { store := (),
            log := [{ call := Call.list, failure := none },
                    { call := Call.get "local", failure := some "connection refused" }] }) ∧
    ¬ List.IsInfix "node-1".data "Failed to get cluster [local] connection refused".data := by
  refine ⟨?_, ?_, ?_, ?_, ?_⟩ <;> decide

/-! ## Lemmas on the sequential store -/

theorem length_le_maxNameLength (items : List ClusterNode) :
    ∀ r ∈ items, (nameOf r).length ≤ maxNameLength items := by
  induction items with
  | nil => simp
  | cons a rest ih =>
    intro r hr
    rcases List.mem_cons.mp hr with h | h
    · subst h
      exact le_max_left _ _
    · exact le_trans (ih r h) (le_max_right _ _)

theorem generatedName_fresh (items : List ClusterNode) (hint : String) :
    generatedName items hint ∉ items.map nameOf := by
  intro h
  obtain ⟨r, hr, hname⟩ := List.mem_map.mp h
  have hle := length_le_maxNameLength items r hr
  have hlen : (generatedName items hint).length
      = hint.length + (maxNameLength items + 1) := by
    show (hint ++ String.mk (List.replicate (maxNameLength items + 1) 'x')).length = _
    rw [String.length_append]
    show hint.length + (List.replicate (maxNameLength items + 1) 'x').length = _
    rw [List.length_replicate]
  rw [hname, hlen] at hle
  omega

theorem store_getCluster_snd (name : String) (s : RecordStore) :
    (RecordStore.getCluster name s).2 = s := by
  unfold RecordStore.getCluster
  split <;> rfl

theorem store_getCluster_congr (name : String) (s t : RecordStore)
    (h : t.clusters = s.clusters) :
    (RecordStore.getCluster name t).1 = (RecordStore.getCluster name s).1 := by
  unfold RecordStore.getCluster
  rw [h]
  split <;> rfl

theorem store_getCluster_eq {name : String} {s t : RecordStore} {c : Cluster}
    (hs : RecordStore.getCluster name s = (Except.ok c, s))
    (h : t.clusters = s.clusters) :
    RecordStore.getCluster name t = (Except.ok c, t) := by
  have h1 := store_getCluster_congr name s t h
  have h2 := store_getCluster_snd name t
  rw [hs] at h1
  exact Prod.ext h1 h2

theorem find_by_name_of_mem (items : List ClusterNode) (E : ClusterNode)
    (hnodup : (items.map nameOf).Nodup) (hE : E ∈ items) :
    items.find? (fun r => decide (nameOf r = nameOf E)) = some E := by
  cases hf : items.find? (fun r => decide (nameOf r = nameOf E)) with
  | none =>
    have := List.find?_eq_none.mp hf E hE
    simp at this
  | some cur =>
    have hmem := List.mem_of_find?_eq_some hf
    have hname := List.find?_some hf
    simp only [decide_eq_true_eq] at hname
    rw [List.inj_on_of_nodup_map hnodup hmem hE hname]

/-- The effect of `create` on a payload that carries no name. -/
theorem store_create_generated (obj : ClusterNode) (s : RecordStore)
    (hname : obj.ObjectMeta.Name = "") :
    ∃ t, RecordStore.create obj s
        = (Except.ok { obj with
            ObjectMeta := { obj.ObjectMeta with
              Name := generatedName s.items obj.ObjectMeta.GenerateName
              ResourceVersion := toString s.revision } }, t) ∧
      t.items = s.items ++ [{ obj with
            ObjectMeta := { obj.ObjectMeta with
              Name := generatedName s.items obj.ObjectMeta.GenerateName
              ResourceVersion := toString s.revision } }] ∧
      t.clusters = s.clusters := by
  have hfresh := generatedName_fresh s.items obj.ObjectMeta.GenerateName
  unfold RecordStore.create
  simp only [hname, if_true]
  rw [dif_neg hfresh]
  exact ⟨_, rfl, rfl, rfl⟩

/-- The effect of `update` with the payload `sync` builds for a stored record. -/
theorem store_update_stored (obj E : ClusterNode) (s : RecordStore) (hE : E ∈ s.items)
    (hname : nameOf obj = nameOf E)
    (hrv : obj.ObjectMeta.ResourceVersion = E.ObjectMeta.ResourceVersion) :
    ∃ t, RecordStore.update obj s
        = (Except.ok { obj with
            ObjectMeta := { obj.ObjectMeta with ResourceVersion := toString s.revision } }, t) ∧
      t.items = s.items.map (fun r => if nameOf r = nameOf E then
          { obj with
            ObjectMeta := { obj.ObjectMeta with ResourceVersion := toString s.revision } }
          else r) ∧
      t.clusters = s.clusters := by
  have hfind : s.items.find? (fun r => decide (nameOf r = nameOf obj)) = some E := by
    rw [hname]
    exact find_by_name_of_mem s.items E s.names_nodup hE
  unfold RecordStore.update
  split
  · next h =>
    rw [hfind] at h
    cases h
  · next cur h =>
    rw [hfind] at h
    cases h
    rw [if_neg (by simp [hrv])]
    exact ⟨_, rfl, by simp [hname], rfl⟩

/-- The effect of `delete` on the name of a stored record. -/
theorem store_delete_stored (E : ClusterNode) (s : RecordStore) (hE : E ∈ s.items) :
    ∃ t, RecordStore.delete (nameOf E) s = (none, t) ∧
      t.items = s.items.filter (fun r => decide (nameOf r ≠ nameOf E)) ∧
      t.clusters = s.clusters := by
  have hmem : nameOf E ∈ s.items.map nameOf := List.mem_map_of_mem nameOf hE
  unfold RecordStore.delete
  rw [if_pos hmem]
  exact ⟨_, rfl, rfl, rfl⟩

theorem store_getClusterNode (cn nodeName : String) (s : RecordStore) :
    (storeSyncer cn).getClusterNode nodeName { store := s, log := [] }
      = (Except.ok (findByNodeName nodeName s.items),
          { store := s, log := [{ call := Call.list, failure := none }] }) :=
  getClusterNode_of_list_ok (storeSyncer cn) nodeName { store := s, log := [] } s.items s rfl

/-- On the sequential store, with a live cluster: reconciling an unseen node
appends the create payload under a generated name. -/
theorem store_sync_unseen (cn key : String) (nd : Node) (s : RecordStore) (c : Cluster)
    (hget : RecordStore.getCluster cn s = (Except.ok c, s))
    (hlive : c.ObjectMeta.DeletionTimestamp = none)
    (hfind : findByNodeName nd.ObjectMeta.Name s.items = none) :
    ∃ t, (storeSyncer cn).sync key (some nd) s
        = (none,
            { store := t,
              log := [{ call := Call.list, failure := none },
                      { call := Call.get cn, failure := none },
                      { call := Call.create (createPayload (storeSyncer cn) nd c),
                        failure := none }] }) ∧
      t.items = s.items ++
        [withResourceVersion
          (withName (createPayload (storeSyncer cn) nd c)
            (generatedName s.items "clusternode-"))
          (toString s.revision)] ∧
      t.clusters = s.clusters := by
  have hf := store_getClusterNode cn nd.ObjectMeta.Name s
  rw [hfind] at hf
  obtain ⟨t, hcr, hitems, hcl⟩ :=
    store_create_generated (createPayload (storeSyncer cn) nd c) s rfl
  refine ⟨t, ?_, hitems, hcl⟩
  rw [sync_unseen_eq (storeSyncer cn) key nd s _ c s hf hget hlive]
  have hcr2 : (storeSyncer cn).ClusterNodes.Create (createPayload (storeSyncer cn) nd c) s
      = _ := hcr
  rw [hcr2]
  rfl

/-- On the sequential store, with a live cluster: reconciling a known node
replaces its record by the update payload, under a new resource version. -/
theorem store_sync_known (cn key : String) (nd : Node) (s : RecordStore) (c : Cluster)
    (E : ClusterNode)
    (hget : RecordStore.getCluster cn s = (Except.ok c, s))
    (hlive : c.ObjectMeta.DeletionTimestamp = none)
    (hfind : findByNodeName nd.ObjectMeta.Name s.items = some E) :
    ∃ t, (storeSyncer cn).sync key (some nd) s
        = (none,
            { store := t,
              log := [{ call := Call.list, failure := none },
                      { call := Call.get cn, failure := none },
                      { call := Call.update (updatePayload (storeSyncer cn) nd c E),
                        failure := none }] }) ∧
      t.items = s.items.map (fun r => if nameOf r = nameOf E then
          withResourceVersion (updatePayload (storeSyncer cn) nd c E) (toString s.revision)
          else r) ∧
      t.clusters = s.clusters := by
  have hf := store_getClusterNode cn nd.ObjectMeta.Name s
  rw [hfind] at hf
  obtain ⟨t, hup, hitems, hcl⟩ :=
    store_update_stored (updatePayload (storeSyncer cn) nd c E) E s
      (findByNodeName_some_mem hfind).1 rfl rfl
  refine ⟨t, ?_, hitems, hcl⟩
  rw [sync_known_eq (storeSyncer cn) key nd s E _ c s hf hget hlive]
  have hup2 : (storeSyncer cn).ClusterNodes.Update (updatePayload (storeSyncer cn) nd c E) s
      = _ := hup
  rw [hup2]
  rfl

/-- On the sequential store: a removal event for a key with a record deletes
the record of that name. -/
theorem store_sync_absent_known (cn key : String) (s : RecordStore) (E : ClusterNode)
    (hfind : findByNodeName key s.items = some E) :
    ∃ t, (storeSyncer cn).sync key none s
        = (none,
            { store := t,
              log := [{ call := Call.list, failure := none },
                      { call := Call.delete E.ObjectMeta.Name, failure := none }] }) ∧
      t.items = s.items.filter (fun r => decide (nameOf r ≠ nameOf E)) ∧
      t.clusters = s.clusters := by
  have hf := store_getClusterNode cn key s
  rw [hfind] at hf
  obtain ⟨t, hdel, hitems, hcl⟩ := store_delete_stored E s (findByNodeName_some_mem hfind).1
  refine ⟨t, ?_, hitems, hcl⟩
  rw [sync_absent_known_eq (storeSyncer cn) key s E _ hf]
  have hdel2 : (storeSyncer cn).ClusterNodes.Delete E.ObjectMeta.Name s = _ := hdel
  rw [hdel2]

/-- On the sequential store: a removal event for a key without a record
changes nothing. -/
theorem store_sync_absent_unseen (cn key : String) (s : RecordStore)
    (hfind : findByNodeName key s.items = none) :
    (storeSyncer cn).sync key none s
      = (none, { store := s, log := [{ call := Call.list, failure := none }] }) := by
  have hf := store_getClusterNode cn key s
  rw [hfind] at hf
  rw [sync_absent_unseen_eq (storeSyncer cn) key s _ hf]

theorem findByNodeName_map_replace (nm : String) (items : List ClusterNode)
    (E stored : ClusterNode) (hfind : findByNodeName nm items = some E)
    (hinj : ∀ r ∈ items, nameOf r = nameOf E → r = E) (hs : stored.NodeName = nm) :
    findByNodeName nm (items.map (fun r => if nameOf r = nameOf E then stored else r))
      = some stored := by
  induction items with
  | nil => simp [findByNodeName] at hfind
  | cons a rest ih =>
    by_cases ha : a.NodeName = nm
    · simp only [findByNodeName, ha, if_true, Option.some.injEq] at hfind
      subst hfind
      simp [findByNodeName, hs]
    · simp only [findByNodeName, ha, if_false] at hfind
      have hE := (findByNodeName_some_mem hfind).2
      have hne : nameOf a ≠ nameOf E := by
        intro h
        have := hinj a (List.mem_cons_self a rest) h
        rw [this] at ha
        exact ha hE
      have := ih hfind (fun r hr => hinj r (List.mem_cons_of_mem a hr))
      simp [findByNodeName, hne, ha, this]

theorem nodeNames_map_replace (items : List ClusterNode) (E stored : ClusterNode)
    (hinj : ∀ r ∈ items, nameOf r = nameOf E → r = E)
    (hs : stored.NodeName = E.NodeName) :
    (items.map (fun r => if nameOf r = nameOf E then stored else r)).map
        (fun r => r.NodeName)
      = items.map (fun r => r.NodeName) := by
  rw [List.map_map]
  apply List.map_congr_left
  intro r hr
  by_cases h : nameOf r = nameOf E
  · simp [h, hs, hinj r hr h]
  · simp [h]

theorem store_names_injective (s : RecordStore) (E : ClusterNode) (hE : E ∈ s.items) :
    ∀ r ∈ s.items, nameOf r = nameOf E → r = E :=
  fun _ hr h => List.inj_on_of_nodup_map s.names_nodup hr hE h

/-! ## One record per node -/

/-- Claim C8 (uniqueness invariant).  Over the sequential store: if no two
stored records share a `NodeName` before a call to `sync`, then no two stored
records share a `NodeName` after it, for every cluster name, key and present
or absent observation, whether the call succeeds or returns an error. -/
theorem sync_keeps_one_record_per_node (cn key : String) (node : Option Node)
    (s : RecordStore) (h : (s.items.map (fun r => r.NodeName)).Nodup) :
    (((storeSyncer cn).sync key node s).2.store.items.map (fun r => r.NodeName)).Nodup := by
  cases node with
  | none =>
    cases hf : findByNodeName key s.items with
    | none =>
      rw [store_sync_absent_unseen cn key s hf]
      exact h
    | some E =>
      obtain ⟨t, hsync, hitems, _⟩ := store_sync_absent_known cn key s E hf
      rw [hsync]
      show (t.items.map (fun r => r.NodeName)).Nodup
      rw [hitems]
      exact List.Nodup.sublist (List.Sublist.map _ (List.filter_sublist s.items)) h
  | some nd =>
    have hfind := store_getClusterNode cn nd.ObjectMeta.Name s
    cases hg : RecordStore.getCluster cn s with
    | mk g s2 =>
    have hs2 : s2 = s := by
      have := store_getCluster_snd cn s
      rw [hg] at this
      exact this
    subst hs2
    cases g with
    | error e =>
      rw [sync_get_failed_eq (storeSyncer cn) key nd s2 _ _ e s2 hfind hg]
      exact h
    | ok c =>
      by_cases hd : c.ObjectMeta.DeletionTimestamp = none
      · cases hf : findByNodeName nd.ObjectMeta.Name s2.items with
        | none =>
          obtain ⟨t, hsync, hitems, _⟩ := store_sync_unseen cn key nd s2 c hg hd hf
          rw [hsync]
          show (t.items.map (fun r => r.NodeName)).Nodup
          rw [hitems, List.map_append]
          refine List.Nodup.append h (List.nodup_singleton _) ?_
          intro a ha hb
          simp only [List.map_cons, List.map_nil, List.mem_singleton] at hb
          obtain ⟨r, hr, hra⟩ := List.mem_map.mp ha
          have hne := (findByNodeName_eq_none_iff nd.ObjectMeta.Name s2.items).mp hf r hr
          apply hne
          rw [hra, hb]
          rfl
        | some E =>
          obtain ⟨t, hsync, hitems, _⟩ := store_sync_known cn key nd s2 c E hg hd hf
          rw [hsync]
          show (t.items.map (fun r => r.NodeName)).Nodup
          have hE := findByNodeName_some_mem hf
          rw [hitems, nodeNames_map_replace s2.items E _
            (store_names_injective s2 E hE.1) (by rw [hE.2]; rfl)]
          exact h
      · rw [sync_removing_eq (storeSyncer cn) key nd s2 _ _ c s2 hfind hg hd]
        exact h

/-- Worked instance of C8: `node-1` is reconciled on a store with one record
per node. -/
theorem sync_keeps_one_record_per_node_witness :
    (sampleStore.items.map (fun r => r.NodeName)).Nodup ∧
    ((((storeSyncer "local").sync "node-1" (some sampleNode) sampleStore).2.store.items.map
      (fun r => r.NodeName)).Nodup) ∧
    ((storeSyncer "local").sync "node-1" (some sampleNode) sampleStore).2.store.items.map
      (fun r => r.NodeName) = ["node-2", "node-1"] :=
  ⟨by decide,
    sync_keeps_one_record_per_node "local" "node-1" (some sampleNode) sampleStore (by decide),
    by decide⟩

/-! ## Idempotence -/

theorem withResourceVersion_twice (r : ClusterNode) (a b : String) :
    withResourceVersion (withResourceVersion r a) b = withResourceVersion r b := rfl

/-- Reconciling again a node whose stored record `R1` already has the shape
`sync` writes leaves that record, and the whole store, as they were up to the
resource version. -/
theorem store_sync_again (cn key : String) (nd : Node) (t1 : RecordStore) (c : Cluster)
    (R1 : ClusterNode)
    (hget : RecordStore.getCluster cn t1 = (Except.ok c, t1))
    (hlive : c.ObjectMeta.DeletionTimestamp = none)
    (hfind : findByNodeName nd.ObjectMeta.Name t1.items = some R1)
    (hform : withResourceVersion (updatePayload (storeSyncer cn) nd c R1)
      R1.ObjectMeta.ResourceVersion = R1) :
    ∃ t2 R2 log2,
      (storeSyncer cn).sync key (some nd) t1 = (none, { store := t2, log := log2 }) ∧
      findByNodeName nd.ObjectMeta.Name t2.items = some R2 ∧
      withResourceVersion R2 R1.ObjectMeta.ResourceVersion = R1 ∧
      t2.items.map (fun r => withResourceVersion r "")
        = t1.items.map (fun r => withResourceVersion r "") := by
  obtain ⟨t2, hsync, hitems, _⟩ := store_sync_known cn key nd t1 c R1 hget hlive hfind
  have hmem := findByNodeName_some_mem hfind
  have hinj := store_names_injective t1 R1 hmem.1
  refine ⟨t2,
    withResourceVersion (updatePayload (storeSyncer cn) nd c R1) (toString t1.revision),
    _, hsync, ?_, ?_, ?_⟩
  · rw [hitems]
    exact findByNodeName_map_replace nd.ObjectMeta.Name t1.items R1 _ hfind hinj rfl
  · rw [withResourceVersion_twice]
    exact hform
  · rw [hitems, List.map_map]
    apply List.map_congr_left
    intro r hr
    by_cases h : nameOf r = nameOf R1
    · have hr1 := hinj r hr h
      simp only [Function.comp, h, if_true, withResourceVersion_twice]
      rw [hr1]
      conv_rhs => rw [← hform]
      rfl
    · simp [Function.comp, h]

/-- Claim C4 (idempotence).  Over the sequential store, with a cluster that is
found and not marked for deletion: `sync(key, N)` followed by `sync(key, N)`
returns no error on either call; the record stored for `N` after the second
call is the record stored after the first call in every field except the
resource version; and so is every other record of the store. -/
theorem sync_twice_same_record (cn key : String) (nd : Node) (s : RecordStore)
    (c : Cluster)
    (hget : RecordStore.getCluster cn s = (Except.ok c, s))
    (hlive : c.ObjectMeta.DeletionTimestamp = none) :
    ∃ t1 t2 R1 R2 log1 log2,
      (storeSyncer cn).sync key (some nd) s = (none, { store := t1, log := log1 }) ∧
      (storeSyncer cn).sync key (some nd) t1 = (none, { store := t2, log := log2 }) ∧
      findByNodeName nd.ObjectMeta.Name t1.items = some R1 ∧
      findByNodeName nd.ObjectMeta.Name t2.items = some R2 ∧
      withResourceVersion R2 R1.ObjectMeta.ResourceVersion = R1 ∧
      t2.items.map (fun r => withResourceVersion r "")
        = t1.items.map (fun r => withResourceVersion r "") := by
  cases hf : findByNodeName nd.ObjectMeta.Name s.items with
  | none =>
    obtain ⟨t1, hsync1, hitems1, hcl1⟩ := store_sync_unseen cn key nd s c hget hlive hf
    have hfind1 : findByNodeName nd.ObjectMeta.Name t1.items
        = some (withResourceVersion
          (withName (createPayload (storeSyncer cn) nd c)
            (generatedName s.items "clusternode-"))
          (toString s.revision)) := by
      rw [hitems1]
      exact findByNodeName_append_of_match nd.ObjectMeta.Name s.items [] _ rfl
        ((findByNodeName_eq_none_iff nd.ObjectMeta.Name s.items).mp hf)
    obtain ⟨t2, R2, log2, hsync2, hfind2, hsame, hall⟩ :=
      store_sync_again cn key nd t1 c _ (store_getCluster_eq hget hcl1) hlive hfind1 rfl
    exact ⟨t1, t2, _, R2, _, log2, hsync1, hsync2, hfind1, hfind2, hsame, hall⟩
  | some E =>
    obtain ⟨t1, hsync1, hitems1, hcl1⟩ := store_sync_known cn key nd s c E hget hlive hf
    have hmem := findByNodeName_some_mem hf
    have hfind1 : findByNodeName nd.ObjectMeta.Name t1.items
        = some (withResourceVersion (updatePayload (storeSyncer cn) nd c E)
          (toString s.revision)) := by
      rw [hitems1]
      exact findByNodeName_map_replace nd.ObjectMeta.Name s.items E _ hf
        (store_names_injective s E hmem.1) rfl
    obtain ⟨t2, R2, log2, hsync2, hfind2, hsame, hall⟩ :=
      store_sync_again cn key nd t1 c _ (store_getCluster_eq hget hcl1) hlive hfind1 rfl
    exact ⟨t1, t2, _, R2, _, log2, hsync1, hsync2, hfind1, hfind2, hsame, hall⟩

/-- Worked instance of C4: `node-1` is reconciled twice from a store without a
record for it; the record keeps its name and content and only the resource
version moves from 1 to 2. -/
theorem sync_twice_same_record_witness :
    (RecordStore.getCluster "local" emptyStore = (Except.ok sampleCluster, emptyStore)) ∧
    sampleCluster.ObjectMeta.DeletionTimestamp = none ∧
    (∃ t1 t2 R1 R2 log1 log2,
      (storeSyncer "local").sync "node-1" (some sampleNode) emptyStore
        = (none, { store := t1, log := log1 }) ∧
      (storeSyncer "local").sync "node-1" (some sampleNode) t1
        = (none, { store := t2, log := log2 }) ∧
      findByNodeName sampleNode.ObjectMeta.Name t1.items = some R1 ∧
      findByNodeName sampleNode.ObjectMeta.Name t2.items = some R2 ∧
      withResourceVersion R2 R1.ObjectMeta.ResourceVersion = R1 ∧
      t2.items.map (fun r => withResourceVersion r "")
        = t1.items.map (fun r => withResourceVersion r "")) ∧
    createdStore.items.map (fun r => (nameOf r, r.ObjectMeta.ResourceVersion))
      = [("clusternode-x", "1")] ∧
    ((storeSyncer "local").sync "node-1" (some sampleNode) createdStore).2.store.items.map
        (fun r => (nameOf r, r.ObjectMeta.ResourceVersion))
      = [("clusternode-x", "2")] :=
  ⟨rfl, rfl,
    sync_twice_same_record "local" "node-1" sampleNode emptyStore sampleCluster rfl rfl,
    by decide, by decide⟩

/-! ## Create, then delete -/

/-- Claim C5 as stated fails.  First, the created record is keyed by the
observation's own name, not by the delivered key: `sync("node-9", N)` with `N`
named `node-1` stores a record with `NodeName` `node-1`, and the following
`sync("node-9", absent)` deletes nothing.  Second, with the cluster marked for
deletion `sync("node-1", N)` creates no record at all. -/
theorem sync_create_then_delete_counterexample :
    ((storeSyncer "local").sync "node-9" (some sampleNode) emptyStore).1 = none ∧
    ((storeSyncer "local").sync "node-9" (some sampleNode) emptyStore).2.store.items.map
        (fun r => r.NodeName) = ["node-1"] ∧
    ((storeSyncer "local").sync "node-9" none
        ((storeSyncer "local").sync "node-9" (some sampleNode) emptyStore).2.store).2.calls
      = [Call.list] ∧
    ((storeSyncer "local").sync "node-9" none
        ((storeSyncer "local").sync "node-9" (some sampleNode) emptyStore).2.store
      ).2.store.items.map (fun r => r.NodeName) = ["node-1"] ∧
    findByNodeName "node-1" removingStore.items = none ∧
    ((storeSyncer "local").sync "node-1" (some sampleNode) removingStore).1
      = some "Cluster [local] in removing state" ∧
    ((storeSyncer "local").sync "node-1" (some sampleNode) removingStore).2.store.items
      = removingStore.items := by
  refine ⟨?_, ?_, ?_, ?_, ?_, ?_, ?_⟩ <;> decide

/-- Claim C5, amended (create-then-delete convergence).  Over the sequential
store, starting from a store with no record for the node, with a cluster that
is found and not marked for deletion, and with the delivered key equal to the
observation's name: `sync(key, N)` succeeds with exactly one create and adds
exactly one record `R`, whose `NodeName` is the key; the following
`sync(key, absent)` succeeds with one delete, addressed to `R`'s name, and the
stored records are the original ones again; a further `sync(key, absent)`
succeeds with no call but the listing and leaves the store as it is. -/
theorem sync_create_then_delete (cn key : String) (nd : Node) (s : RecordStore)
    (c : Cluster)
    (hkey : nd.ObjectMeta.Name = key)
    (hget : RecordStore.getCluster cn s = (Except.ok c, s))
    (hlive : c.ObjectMeta.DeletionTimestamp = none)
    (hfind : findByNodeName key s.items = none) :
    ∃ t1 t2 R obj,
      (storeSyncer cn).sync key (some nd) s
        = (none,
            { store := t1,
              log := [{ call := Call.list, failure := none },
                      { call := Call.get cn, failure := none },
                      { call := Call.create obj, failure := none }] }) ∧
      t1.items = s.items ++ [R] ∧ R.NodeName = key ∧
      (storeSyncer cn).sync key none t1
        = (none,
            { store := t2,
              log := [{ call := Call.list, failure := none },
                      { call := Call.delete R.ObjectMeta.Name, failure := none }] }) ∧
      t2.items = s.items ∧
      (storeSyncer cn).sync key none t2
        = (none, { store := t2, log := [{ call := Call.list, failure := none }] }) := by
  subst hkey
  obtain ⟨t1, hsync1, hitems1, _⟩ := store_sync_unseen cn nd.ObjectMeta.Name nd s c hget hlive hfind
  have hnone := (findByNodeName_eq_none_iff nd.ObjectMeta.Name s.items).mp hfind
  have hfind1 : findByNodeName nd.ObjectMeta.Name t1.items
      = some (withResourceVersion
        (withName (createPayload (storeSyncer cn) nd c)
          (generatedName s.items "clusternode-"))
        (toString s.revision)) := by
    rw [hitems1]
    exact findByNodeName_append_of_match nd.ObjectMeta.Name s.items [] _ rfl hnone
  obtain ⟨t2, hsync2, hitems2, _⟩ :=
    store_sync_absent_known cn nd.ObjectMeta.Name t1 _ hfind1
  have hfresh := generatedName_fresh s.items "clusternode-"
  have hitems2s : t2.items = s.items := by
    rw [hitems2, hitems1, List.filter_append]
    have h1 : List.filter (fun r => decide (nameOf r ≠ nameOf (withResourceVersion
        (withName (createPayload (storeSyncer cn) nd c)
          (generatedName s.items "clusternode-"))
        (toString s.revision)))) s.items = s.items := by
      apply List.filter_eq_self.mpr
      intro r hr
      simp only [ne_eq, decide_eq_true_eq]
      intro h
      exact hfresh (List.mem_map.mpr ⟨r, hr, h⟩)
    rw [h1]
    simp
  refine ⟨t1, t2, _, _, hsync1, hitems1, rfl, hsync2, hitems2s, ?_⟩
  apply store_sync_absent_unseen
  rw [hitems2s]
  exact hfind

/-- Worked instance of C5 (amended): `node-1` is created on a store that holds
no derived record, then removed twice. -/
theorem sync_create_then_delete_witness :
    sampleNode.ObjectMeta.Name = "node-1" ∧
    (RecordStore.getCluster "local" emptyStore = (Except.ok sampleCluster, emptyStore)) ∧
    sampleCluster.ObjectMeta.DeletionTimestamp = none ∧
    findByNodeName "node-1" emptyStore.items = none ∧
    (∃ t1 t2 R obj,
      (storeSyncer "local").sync "node-1" (some sampleNode) emptyStore
        = (none,
            { store := t1,
              log := [{ call := Call.list, failure := none },
                      { call := Call.get "local", failure := none },
                      { call := Call.create obj, failure := none }] }) ∧
      t1.items = emptyStore.items ++ [R] ∧ R.NodeName = "node-1" ∧
      (storeSyncer "local").sync "node-1" none t1
        = (none,
            { store := t2,
              log := [{ call := Call.list, failure := none },
                      { call := Call.delete R.ObjectMeta.Name, failure := none }] }) ∧
      t2.items = emptyStore.items ∧
      (storeSyncer "local").sync "node-1" none t2
        = (none, { store := t2, log := [{ call := Call.list, failure := none }] })) :=
  ⟨rfl, rfl, rfl, rfl,
    sync_create_then_delete "local" "node-1" sampleNode emptyStore sampleCluster rfl rfl rfl
      rfl⟩

/-! ## Projection -/

/-- Claim C11 (projection).  `convertNodeToClusterNode` returns nil for a nil
observation.  For a node `N` and a cluster `C` it returns a record with
`NodeSpec = N.Spec`, `Status.NodeStatus = N.Status`, `NodeName = N.Name`,
`ClusterName` the reconciler's cluster name, `N`'s labels and annotations, kind
`ClusterNode` and API version `cluster.cattle.io/v1`, the generate-name hint
`clusternode-` with an empty name and an empty resource version, and exactly
one owner reference, carrying the reconciler's cluster name and `C`'s UID, API
version and kind. -/
theorem convertNodeToClusterNode_projection {σ : Type} (n : NodeSyncer σ) (c : Cluster) :
    n.convertNodeToClusterNode none c = none ∧
    ∀ node : Node, ∃ p, n.convertNodeToClusterNode (some node) c = some p ∧
      p.NodeSpec = node.Spec ∧ p.Status.NodeStatus = node.Status ∧
      p.NodeName = node.ObjectMeta.Name ∧ p.ClusterName = n.clusterName ∧
      p.ObjectMeta.Labels = node.ObjectMeta.Labels ∧
      p.ObjectMeta.Annotations = node.ObjectMeta.Annotations ∧
      p.TypeMeta.Kind = "ClusterNode" ∧ p.TypeMeta.APIVersion = "cluster.cattle.io/v1" ∧
      p.ObjectMeta.GenerateName = "clusternode-" ∧ p.ObjectMeta.Name = "" ∧
      p.ObjectMeta.ResourceVersion = "" ∧
      p.ObjectMeta.OwnerReferences
        = [{ APIVersion := c.TypeMeta.APIVersion, Kind := c.TypeMeta.Kind,
             Name := n.clusterName, UID := c.ObjectMeta.UID }] := by
  refine ⟨rfl, fun node => ⟨_, rfl, ?_⟩⟩
  exact ⟨rfl, rfl, rfl, rfl, rfl, rfl, rfl, rfl, rfl, rfl, rfl, rfl⟩

/-- Worked instance of C11: the projection of `sampleNode` under `sampleCluster`
is `sampleCreate` before the accounting maps are initialised (both still nil). -/
theorem convertNodeToClusterNode_projection_witness :
    (sampleScript.syncer "local").convertNodeToClusterNode none sampleCluster = none ∧
    (sampleScript.syncer "local").convertNodeToClusterNode (some sampleNode) sampleCluster
      = some { sampleCreate with
          Status := { sampleCreate.Status with Requested := none, Limits := none } } ∧
    sampleCreate.ObjectMeta.OwnerReferences
      = [{ APIVersion := "cluster.cattle.io/v1", Kind := "Cluster", Name := "local",
           UID := "c-uid-1" }] :=
  ⟨(convertNodeToClusterNode_projection (sampleScript.syncer "local") sampleCluster).1,
    by decide, rfl⟩

/-! ## The payloads of update and create -/

/-- Claim C12 (update identity overlay).  When the lookup finds an existing
record `E` and the cluster fetch succeeds, every record `sync` submits to
`Update` is the projection of the node and the fetched cluster with exactly
four fields replaced by `E`'s values: resource version, name, requested and
limits.  So its name and resource version are `E`'s.  Such a record is
submitted as soon as the cluster is not marked for deletion. -/
theorem sync_update_payload_is_overlay {σ : Type} (n : NodeSyncer σ) (key : String)
    (node : Node) (s : σ) (E : ClusterNode) (w1 : World σ) (c : Cluster) (s2 : σ)
    (hfind : n.getClusterNode node.ObjectMeta.Name { store := s, log := [] }
      = (Except.ok (some E), w1))
    (hget : n.Clusters.Get n.clusterName w1.store = (Except.ok c, s2)) :
    (∀ obj, Call.update obj ∈ (n.sync key (some node) s).2.calls →
      (∃ p, n.convertNodeToClusterNode (some node) c = some p ∧
        obj = { p with
          ObjectMeta := { p.ObjectMeta with
            ResourceVersion := E.ObjectMeta.ResourceVersion
            Name := E.ObjectMeta.Name }
          Status := { p.Status with
            Requested := E.Status.Requested
            Limits := E.Status.Limits } }) ∧
      obj.ObjectMeta.Name = E.ObjectMeta.Name ∧
      obj.ObjectMeta.ResourceVersion = E.ObjectMeta.ResourceVersion) ∧
    (c.ObjectMeta.DeletionTimestamp = none →
      ∃ obj, (n.sync key (some node) s).2.calls
        = [Call.list, Call.get n.clusterName, Call.update obj]) := by
  by_cases hd : c.ObjectMeta.DeletionTimestamp = none
  · rw [sync_known_eq n key node s E w1 c s2 hfind hget hd]
    constructor
    · intro obj
      split <;> (simp [World.calls]; rintro rfl; exact ⟨⟨_, rfl, rfl⟩, rfl, rfl⟩)
    · intro _
      split <;> exact ⟨_, rfl⟩
  · rw [sync_removing_eq n key node s (some E) w1 c s2 hfind hget hd]
    exact ⟨by simp [World.calls], fun h => absurd h hd⟩

/-- Worked instance of C12: `node-1` is known under the name
`clusternode-k4x9p` and resource version 41. -/
theorem sync_update_payload_is_overlay_witness :
    ((sampleScript.syncer "local").getClusterNode sampleNode.ObjectMeta.Name
        { store := (), log := [] }
      = (Except.ok (some sampleRecord),
          { store := (), log := [{ call := Call.list, failure := none }] })) ∧
    ((sampleScript.syncer "local").Clusters.Get "local" () = (Except.ok sampleCluster, ())) ∧
    ((∀ obj, Call.update obj ∈
        ((sampleScript.syncer "local").sync "node-1" (some sampleNode) ()).2.calls →
      (∃ p, (sampleScript.syncer "local").convertNodeToClusterNode (some sampleNode)
          sampleCluster = some p ∧
        obj = { p with
          ObjectMeta := { p.ObjectMeta with
            ResourceVersion := sampleRecord.ObjectMeta.ResourceVersion
            Name := sampleRecord.ObjectMeta.Name }
          Status := { p.Status with
            Requested := sampleRecord.Status.Requested
            Limits := sampleRecord.Status.Limits } }) ∧
      obj.ObjectMeta.Name = sampleRecord.ObjectMeta.Name ∧
      obj.ObjectMeta.ResourceVersion = sampleRecord.ObjectMeta.ResourceVersion) ∧
    (sampleCluster.ObjectMeta.DeletionTimestamp = none →
      ∃ obj, ((sampleScript.syncer "local").sync "node-1" (some sampleNode) ()).2.calls
        = [Call.list, Call.get "local", Call.update obj])) ∧
    ((sampleScript.syncer "local").sync "node-1" (some sampleNode) ()).2.calls
      = [Call.list, Call.get "local", Call.update sampleUpdate] ∧
    sampleUpdate.ObjectMeta.Name = "clusternode-k4x9p" ∧
    sampleUpdate.ObjectMeta.ResourceVersion = "41" :=
  ⟨rfl, rfl,
    sync_update_payload_is_overlay (sampleScript.syncer "local") "node-1" sampleNode ()
      sampleRecord { store := (), log := [{ call := Call.list, failure := none }] }
      sampleCluster () rfl rfl,
    by decide, rfl, rfl⟩

/-- Claim C13 (create payload).  When the lookup finds no record for the node,
the cluster fetch succeeds and the cluster is not marked for deletion, the
calls of `sync` are exactly list, get, create (one create, no update, no
delete), and the record submitted to `Create` is the projection of the node
and the fetched cluster with `Status.Requested` and `Status.Limits` set to
empty maps (present and empty, not nil). -/
theorem sync_create_payload {σ : Type} (n : NodeSyncer σ) (key : String)
    (node : Node) (s : σ) (w1 : World σ) (c : Cluster) (s2 : σ)
    (hfind : n.getClusterNode node.ObjectMeta.Name { store := s, log := [] }
      = (Except.ok none, w1))
    (hget : n.Clusters.Get n.clusterName w1.store = (Except.ok c, s2))
    (hlive : c.ObjectMeta.DeletionTimestamp = none) :
    ∃ p, n.convertNodeToClusterNode (some node) c = some p ∧
      (n.sync key (some node) s).2.calls
        = [Call.list, Call.get n.clusterName,
           Call.create { p with
             Status := { p.Status with Requested := some [], Limits := some [] } }] := by
  refine ⟨_, rfl, ?_⟩
  rw [sync_unseen_eq n key node s w1 c s2 hfind hget hlive]
  split <;> rfl

/-- Worked instance of C13: `node-1` is unseen and the cluster is live. -/
theorem sync_create_payload_witness :
    ((unseenScript.syncer "local").getClusterNode sampleNode.ObjectMeta.Name
        { store := (), log := [] }
      = (Except.ok none, { store := (), log := [{ call := Call.list, failure := none }] })) ∧
    ((unseenScript.syncer "local").Clusters.Get "local" () = (Except.ok sampleCluster, ())) ∧
    sampleCluster.ObjectMeta.DeletionTimestamp = none ∧
    (∃ p, (unseenScript.syncer "local").convertNodeToClusterNode (some sampleNode)
        sampleCluster = some p ∧
      ((unseenScript.syncer "local").sync "node-1" (some sampleNode) ()).2.calls
        = [Call.list, Call.get "local",
           Call.create { p with
             Status := { p.Status with Requested := some [], Limits := some [] } }]) ∧
    ((unseenScript.syncer "local").sync "node-1" (some sampleNode) ()).2.calls
      = [Call.list, Call.get "local", Call.create sampleCreate] ∧
    sampleCreate.Status.Requested = some [] ∧ sampleCreate.Status.Limits = some [] ∧
    sampleCreate.ObjectMeta.Name = "" :=
  ⟨rfl, rfl, rfl,
    sync_create_payload (unseenScript.syncer "local") "node-1" sampleNode ()
      { store := (), log := [{ call := Call.list, failure := none }] }
      sampleCluster () rfl rfl rfl,
    by decide, rfl, rfl, rfl⟩

/-! ## The delete path -/

/-- Claim C14 (delete path).  For an absent observation whose lookup succeeds:
when no record has `NodeName` equal to the key, `sync` returns success and its
only call is the listing (no create, update or delete); when the lookup finds
a record `E`, its calls are the listing and exactly one delete, addressed to
`E`'s name (not to the node name), and it returns success when the store
accepts the delete and "Failed to delete cluster node [key] e" when the store
rejects it with `e`. -/
theorem sync_absent_deletes_by_record_name {σ : Type} (n : NodeSyncer σ) (key : String)
    (s : σ) (existing : Option ClusterNode) (w1 : World σ)
    (hfind : n.getClusterNode key { store := s, log := [] } = (Except.ok existing, w1)) :
    (existing = none →
      (n.sync key none s).1 = none ∧ (n.sync key none s).2.calls = [Call.list] ∧
      (n.sync key none s).2.store = w1.store) ∧
    (∀ E, existing = some E →
      (n.sync key none s).2.calls = [Call.list, Call.delete E.ObjectMeta.Name] ∧
      (∀ s2, n.ClusterNodes.Delete E.ObjectMeta.Name w1.store = (none, s2) →
        (n.sync key none s).1 = none ∧ (n.sync key none s).2.store = s2) ∧
      (∀ e s2, n.ClusterNodes.Delete E.ObjectMeta.Name w1.store = (some e, s2) →
        (n.sync key none s).1
          = some ("Failed to delete cluster node [" ++ key ++ "] " ++ e) ∧
        (n.sync key none s).2.store = s2)) := by
  constructor
  · rintro rfl
    rw [sync_absent_unseen_eq n key s w1 hfind]
    exact ⟨rfl, rfl, rfl⟩
  · rintro E rfl
    rw [sync_absent_known_eq n key s E w1 hfind]
    refine ⟨?_, ?_, ?_⟩
    · split <;> rfl
    · intro s2 h
      simp [h]
    · intro e s2 h
      simp [h]

/-- Worked instance of C14: the key `node-3` has no record; the key `node-1`
has the record named `clusternode-k4x9p`, and the delete is addressed to that
name; a store that rejects the delete yields the wrapped error. -/
theorem sync_absent_deletes_by_record_name_witness :
    ((sampleScript.syncer "local").getClusterNode "node-3" { store := (), log := [] }
      = (Except.ok none, { store := (), log := [{ call := Call.list, failure := none }] })) ∧
    ((sampleScript.syncer "local").sync "node-3" none ()).1 = none ∧
    ((sampleScript.syncer "local").sync "node-3" none ()).2.calls = [Call.list] ∧
    ((sampleScript.syncer "local").getClusterNode "node-1" { store := (), log := [] }
      = (Except.ok (some sampleRecord),
          { store := (), log := [{ call := Call.list, failure := none }] })) ∧
    ((sampleScript.syncer "local").sync "node-1" none ()).2.calls
      = [Call.list, Call.delete "clusternode-k4x9p"] ∧
    ((sampleScript.syncer "local").sync "node-1" none ()).1 = none ∧
    ((failingDeleteScript.syncer "local").sync "node-1" none ()).2.calls
      = [Call.list, Call.delete "clusternode-k4x9p"] ∧
    ((failingDeleteScript.syncer "local").sync "node-1" none ()).1
      = some ("Failed to delete cluster node [" ++ "node-1" ++ "] " ++ "connection refused") :=
  ⟨rfl,
    ((sync_absent_deletes_by_record_name (sampleScript.syncer "local") "node-3" () none
      { store := (), log := [{ call := Call.list, failure := none }] } rfl).1 rfl).1,
    ((sync_absent_deletes_by_record_name (sampleScript.syncer "local") "node-3" () none
      { store := (), log := [{ call := Call.list, failure := none }] } rfl).1 rfl).2.1,
    rfl,
    ((sync_absent_deletes_by_record_name (sampleScript.syncer "local") "node-1" ()
      (some sampleRecord) { store := (), log := [{ call := Call.list, failure := none }] }
      rfl).2 sampleRecord rfl).1,
    (((sync_absent_deletes_by_record_name (sampleScript.syncer "local") "node-1" ()
      (some sampleRecord) { store := (), log := [{ call := Call.list, failure := none }] }
      rfl).2 sampleRecord rfl).2.1 () rfl).1,
    ((sync_absent_deletes_by_record_name (failingDeleteScript.syncer "local") "node-1" ()
      (some sampleRecord) { store := (), log := [{ call := Call.list, failure := none }] }
      rfl).2 sampleRecord rfl).1,
    (((sync_absent_deletes_by_record_name (failingDeleteScript.syncer "local") "node-1" ()
      (some sampleRecord) { store := (), log := [{ call := Call.list, failure := none }] }
      rfl).2 sampleRecord rfl).2.2 "connection refused" () rfl).1⟩

/-! ## One write per event -/

/-- The calls of one `sync` have one of five shapes. -/
theorem sync_calls_shape {σ : Type} (n : NodeSyncer σ) (key : String)
    (node : Option Node) (s : σ) :
    (n.sync key node s).2.calls = [Call.list] ∨
    (n.sync key node s).2.calls = [Call.list, Call.get n.clusterName] ∨
    (∃ obj, (n.sync key node s).2.calls
      = [Call.list, Call.get n.clusterName, Call.create obj]) ∨
    (∃ obj, (n.sync key node s).2.calls
      = [Call.list, Call.get n.clusterName, Call.update obj]) ∨
    (∃ name, (n.sync key node s).2.calls = [Call.list, Call.delete name]) := by
  cases hl : n.ClusterNodes.List s with
  | mk r s1 =>
  cases r with
  | error e1 =>
    rw [sync_list_failed_eq n key node s e1 s1 hl]
    exact Or.inl rfl
  | ok items =>
    cases node with
    | none =>
      have hfind := getClusterNode_of_list_ok n key { store := s, log := [] } items s1 hl
      cases hf : findByNodeName key items with
      | none =>
        rw [hf] at hfind
        rw [sync_absent_unseen_eq n key s _ hfind]
        exact Or.inl rfl
      | some E =>
        rw [hf] at hfind
        rw [sync_absent_known_eq n key s E _ hfind]
        refine Or.inr (Or.inr (Or.inr (Or.inr ⟨E.ObjectMeta.Name, ?_⟩)))
        split <;> rfl
    | some nd =>
      have hfind := getClusterNode_of_list_ok n nd.ObjectMeta.Name
        { store := s, log := [] } items s1 hl
      cases hg : n.Clusters.Get n.clusterName
          (World.record { store := s, log := [] } Call.list none s1).store with
      | mk g s2 =>
      cases g with
      | error e2 =>
        rw [sync_get_failed_eq n key nd s _ _ e2 s2 hfind hg]
        exact Or.inr (Or.inl rfl)
      | ok c =>
        by_cases hd : c.ObjectMeta.DeletionTimestamp = none
        · cases hf : findByNodeName nd.ObjectMeta.Name items with
          | none =>
            rw [hf] at hfind
            rw [sync_unseen_eq n key nd s _ c s2 hfind hg hd]
            refine Or.inr (Or.inr (Or.inl ⟨createPayload n nd c, ?_⟩))
            split <;> rfl
          | some E =>
            rw [hf] at hfind
            rw [sync_known_eq n key nd s E _ c s2 hfind hg hd]
            refine Or.inr (Or.inr (Or.inr (Or.inl ⟨updatePayload n nd c E, ?_⟩)))
            split <;> rfl
        · rw [sync_removing_eq n key nd s _ _ c s2 hfind hg hd]
          exact Or.inr (Or.inl rfl)

/-- Claim C15 (single write per event).  Every invocation of `sync` issues at
most one writing call (create, update or delete).  When the record listing
fails, the listing is the only call, the listing error is returned and the
store is in the state the listing left.  When, for a present observation, the
cluster fetch fails, the only calls are the listing and the fetch, the wrapped
fetch error is returned and the store is in the state the fetch left. -/
theorem sync_at_most_one_write {σ : Type} (n : NodeSyncer σ) (key : String)
    (node : Option Node) (s : σ) :
    ((n.sync key node s).2.calls.filter Call.isWrite).length ≤ 1 ∧
    (∀ e s1, n.ClusterNodes.List s = (Except.error e, s1) →
      (n.sync key node s).1 = some e ∧ (n.sync key node s).2.calls = [Call.list] ∧
      (n.sync key node s).2.store = s1) ∧
    (∀ nd existing w1 e s2, node = some nd →
      n.getClusterNode nd.ObjectMeta.Name { store := s, log := [] }
        = (Except.ok existing, w1) →
      n.Clusters.Get n.clusterName w1.store = (Except.error e, s2) →
      (n.sync key node s).1
        = some ("Failed to get cluster [" ++ n.clusterName ++ "] " ++ e) ∧
      (n.sync key node s).2.calls = [Call.list, Call.get n.clusterName] ∧
      (n.sync key node s).2.store = s2) := by
  refine ⟨?_, ?_, ?_⟩
  · rcases sync_calls_shape n key node s with h | h | ⟨obj, h⟩ | ⟨obj, h⟩ | ⟨name, h⟩ <;>
      rw [h] <;> simp [List.filter, Call.isWrite]
  · intro e s1 hl
    rw [sync_list_failed_eq n key node s e s1 hl]
    exact ⟨rfl, rfl, rfl⟩
  · rintro nd existing w1 e s2 rfl hfind hget
    rw [sync_get_failed_eq n key nd s existing w1 e s2 hfind hget]
    exact ⟨rfl, rfl, rfl⟩

/-- Worked instance of C15: a failed listing, a failed cluster fetch on the
sequential store (no cluster record), and an update. -/
theorem sync_at_most_one_write_witness :
    ((failingListScript.syncer "local").ClusterNodes.List ()
      = (Except.error "connection refused", ())) ∧
    ((failingListScript.syncer "local").sync "node-1" (some sampleNode) ()).1
      = some "connection refused" ∧
    ((failingListScript.syncer "local").sync "node-1" (some sampleNode) ()).2.calls
      = [Call.list] ∧
    ((storeSyncer "local").getClusterNode sampleNode.ObjectMeta.Name
        { store := orphanStore, log := [] }
      = (Except.ok (some sampleRecord),
          { store := orphanStore, log := [{ call := Call.list, failure := none }] })) ∧
    ((storeSyncer "local").Clusters.Get "local" orphanStore
      = (Except.error "clusters \"local\" not found", orphanStore)) ∧
    (((storeSyncer "local").sync "node-1" (some sampleNode) orphanStore).1
      = some ("Failed to get cluster [" ++ "local" ++ "] " ++ "clusters \"local\" not found") ∧
    ((storeSyncer "local").sync "node-1" (some sampleNode) orphanStore).2.calls
      = [Call.list, Call.get "local"] ∧
    ((storeSyncer "local").sync "node-1" (some sampleNode) orphanStore).2.store
      = orphanStore) ∧
    (((sampleScript.syncer "local").sync "node-1" (some sampleNode) ()).2.calls.filter
      Call.isWrite).length ≤ 1 ∧
    ((sampleScript.syncer "local").sync "node-1" (some sampleNode) ()).2.calls.filter
      Call.isWrite = [Call.update sampleUpdate] :=
  ⟨rfl,
    ((sync_at_most_one_write (failingListScript.syncer "local") "node-1" (some sampleNode)
      ()).2.1 "connection refused" () rfl).1,
    ((sync_at_most_one_write (failingListScript.syncer "local") "node-1" (some sampleNode)
      ()).2.1 "connection refused" () rfl).2.1,
    rfl, rfl,
    (sync_at_most_one_write (storeSyncer "local") "node-1" (some sampleNode)
      orphanStore).2.2 sampleNode (some sampleRecord)
      { store := orphanStore, log := [{ call := Call.list, failure := none }] }
      "clusters \"local\" not found" orphanStore rfl rfl rfl,
    (sync_at_most_one_write (sampleScript.syncer "local") "node-1" (some sampleNode) ()).1,
    by decide⟩

/-! ## What the delivered key and the cluster record decide -/

/-- Claim C16 (key independence on the observed path).  For a present
observation `sync` returns the same error, the same store state and the same
exchanges with the same payloads whatever key is delivered.  With a listing
and a cluster fetch that succeed and a cluster that is not marked for
deletion, the record is looked up by the observation's own name: a create when
no listed record has that `NodeName`, an update of the found record otherwise.
The delivered key is the lookup key when the observation is absent. -/
theorem sync_observed_ignores_key {σ : Type} (n : NodeSyncer σ) (k1 k2 : String)
    (node : Node) (s : σ) :
    n.sync k1 (some node) s = n.sync k2 (some node) s ∧
    (∀ items s1 c s2, n.ClusterNodes.List s = (Except.ok items, s1) →
      n.Clusters.Get n.clusterName s1 = (Except.ok c, s2) →
      c.ObjectMeta.DeletionTimestamp = none →
      (findByNodeName node.ObjectMeta.Name items = none →
        ∃ obj, obj.NodeName = node.ObjectMeta.Name ∧
          (n.sync k1 (some node) s).2.calls
            = [Call.list, Call.get n.clusterName, Call.create obj]) ∧
      (∀ E, findByNodeName node.ObjectMeta.Name items = some E →
        ∃ obj, obj.ObjectMeta.Name = E.ObjectMeta.Name ∧
          (n.sync k1 (some node) s).2.calls
            = [Call.list, Call.get n.clusterName, Call.update obj])) ∧
    (∀ items s1, n.ClusterNodes.List s = (Except.ok items, s1) →
      (findByNodeName k1 items = none → (n.sync k1 none s).2.calls = [Call.list]) ∧
      (∀ E, findByNodeName k1 items = some E →
        (n.sync k1 none s).2.calls = [Call.list, Call.delete E.ObjectMeta.Name])) := by
  refine ⟨rfl, ?_, ?_⟩
  · intro items s1 c s2 hl hg hd
    have hfind := getClusterNode_of_list_ok n node.ObjectMeta.Name
      { store := s, log := [] } items s1 hl
    constructor
    · intro hf
      rw [hf] at hfind
      refine ⟨createPayload n node c, rfl, ?_⟩
      rw [sync_unseen_eq n k1 node s _ c s2 hfind hg hd]
      split <;> rfl
    · intro E hf
      rw [hf] at hfind
      refine ⟨updatePayload n node c E, rfl, ?_⟩
      rw [sync_known_eq n k1 node s E _ c s2 hfind hg hd]
      split <;> rfl
  · intro items s1 hl
    have hfind := getClusterNode_of_list_ok n k1 { store := s, log := [] } items s1 hl
    constructor
    · intro hf
      rw [hf] at hfind
      rw [sync_absent_unseen_eq n k1 s _ hfind]
      rfl
    · intro E hf
      rw [hf] at hfind
      rw [sync_absent_known_eq n k1 s E _ hfind]
      split <;> rfl

/-- Worked instance of C16: `node-1` observed under the keys `node-9` and
`node-1` gives the same update of `clusternode-k4x9p`; with the observation
absent the two keys give different calls. -/
theorem sync_observed_ignores_key_witness :
    (sampleScript.syncer "local").sync "node-9" (some sampleNode) ()
      = (sampleScript.syncer "local").sync "node-1" (some sampleNode) () ∧
    ((sampleScript.syncer "local").ClusterNodes.List ()
      = (Except.ok [otherRecord, sampleRecord], ())) ∧
    ((sampleScript.syncer "local").Clusters.Get "local" () = (Except.ok sampleCluster, ())) ∧
    sampleCluster.ObjectMeta.DeletionTimestamp = none ∧
    findByNodeName sampleNode.ObjectMeta.Name [otherRecord, sampleRecord]
      = some sampleRecord ∧
    (∃ obj, obj.ObjectMeta.Name = sampleRecord.ObjectMeta.Name ∧
      ((sampleScript.syncer "local").sync "node-9" (some sampleNode) ()).2.calls
        = [Call.list, Call.get "local", Call.update obj]) ∧
    ((sampleScript.syncer "local").sync "node-9" (some sampleNode) ()).2.calls
      = [Call.list, Call.get "local", Call.update sampleUpdate] ∧
    findByNodeName "node-9" [otherRecord, sampleRecord] = none ∧
    ((sampleScript.syncer "local").sync "node-9" none ()).2.calls = [Call.list] ∧
    ((sampleScript.syncer "local").sync "node-1" none ()).2.calls
      = [Call.list, Call.delete "clusternode-k4x9p"] :=
  ⟨(sync_observed_ignores_key (sampleScript.syncer "local") "node-9" "node-1" sampleNode
      ()).1,
    rfl, rfl, rfl, rfl,
    ((sync_observed_ignores_key (sampleScript.syncer "local") "node-9" "node-1" sampleNode
      ()).2.1 [otherRecord, sampleRecord] () sampleCluster () rfl rfl rfl).2 sampleRecord rfl,
    by decide, rfl,
    ((sync_observed_ignores_key (sampleScript.syncer "local") "node-9" "node-1" sampleNode
      ()).2.2 [otherRecord, sampleRecord] () rfl).1 rfl,
    by decide⟩

/-- The calls of one `sync` for an absent observation: the listing, then at
most one delete. -/
theorem sync_absent_calls_shape {σ : Type} (n : NodeSyncer σ) (key : String) (s : σ) :
    (n.sync key none s).2.calls = [Call.list] ∨
    (∃ name, (n.sync key none s).2.calls = [Call.list, Call.delete name]) := by
  cases hl : n.ClusterNodes.List s with
  | mk r s1 =>
  cases r with
  | error e1 =>
    rw [sync_list_failed_eq n key none s e1 s1 hl]
    exact Or.inl rfl
  | ok items =>
    have hfind := getClusterNode_of_list_ok n key { store := s, log := [] } items s1 hl
    cases hf : findByNodeName key items with
    | none =>
      rw [hf] at hfind
      rw [sync_absent_unseen_eq n key s _ hfind]
      exact Or.inl rfl
    | some E =>
      rw [hf] at hfind
      rw [sync_absent_known_eq n key s E _ hfind]
      refine Or.inr ⟨E.ObjectMeta.Name, ?_⟩
      split <;> rfl

/-- Claim C17 (delete ignores cluster state).  For an absent observation the
outcome of `sync` is the same for any two syncers that share the record-store
handle, whatever their cluster-store handle and cluster name, and no call of
the cluster store is issued.  On the sequential store, two states with the same
derived records give the same error, the same exchanges and the same derived
records afterwards, whatever cluster records they hold. -/
theorem sync_absent_ignores_cluster {σ : Type} (n1 n2 : NodeSyncer σ) (key : String)
    (s : σ) (hsame : n1.ClusterNodes = n2.ClusterNodes) :
    n1.sync key none s = n2.sync key none s ∧
    (∀ name, Call.get name ∉ (n1.sync key none s).2.calls) ∧
    (∀ (cn1 cn2 : String) (t1 t2 : RecordStore), t1.items = t2.items →
      ((storeSyncer cn1).sync key none t1).1 = ((storeSyncer cn2).sync key none t2).1 ∧
      ((storeSyncer cn1).sync key none t1).2.log
        = ((storeSyncer cn2).sync key none t2).2.log ∧
      ((storeSyncer cn1).sync key none t1).2.store.items
        = ((storeSyncer cn2).sync key none t2).2.store.items) := by
  refine ⟨?_, ?_, ?_⟩
  · simp only [sync, deleteClusterNode, getClusterNode, hsame]
  · intro name
    rcases sync_absent_calls_shape n1 key s with h | ⟨nm, h⟩ <;> rw [h] <;> simp
  · intro cn1 cn2 t1 t2 hitems
    cases hf : findByNodeName key t2.items with
    | none =>
      rw [store_sync_absent_unseen cn2 key t2 hf,
        store_sync_absent_unseen cn1 key t1 (by rw [hitems]; exact hf)]
      exact ⟨rfl, rfl, hitems⟩
    | some E =>
      obtain ⟨u2, h2, hi2, _⟩ := store_sync_absent_known cn2 key t2 E hf
      obtain ⟨u1, h1, hi1, _⟩ :=
        store_sync_absent_known cn1 key t1 E (by rw [hitems]; exact hf)
      rw [h1, h2]
      refine ⟨rfl, rfl, ?_⟩
      show u1.items = u2.items
      rw [hi1, hi2, hitems]

/-- Worked instance of C17: the removal of `node-1` is the same with a live
cluster under the name `local` and with a cluster store that fails under the
name `elsewhere`; on the sequential store the record is deleted while the
cluster is in removal and while there is no cluster record at all. -/
theorem sync_absent_ignores_cluster_witness :
    ((sampleScript.syncer "local").ClusterNodes
      = (failingGetScript.syncer "elsewhere").ClusterNodes) ∧
    ((sampleScript.syncer "local").sync "node-1" none ()
      = (failingGetScript.syncer "elsewhere").sync "node-1" none ()) ∧
    (∀ name, Call.get name ∉ ((sampleScript.syncer "local").sync "node-1" none ()).2.calls) ∧
    removingSampleStore.items = orphanStore.items ∧
    (((storeSyncer "local").sync "node-1" none removingSampleStore).1
        = ((storeSyncer "elsewhere").sync "node-1" none orphanStore).1 ∧
      ((storeSyncer "local").sync "node-1" none removingSampleStore).2.log
        = ((storeSyncer "elsewhere").sync "node-1" none orphanStore).2.log ∧
      ((storeSyncer "local").sync "node-1" none removingSampleStore).2.store.items
        = ((storeSyncer "elsewhere").sync "node-1" none orphanStore).2.store.items) ∧
    ((storeSyncer "local").sync "node-1" none removingSampleStore).1 = none ∧
    ((storeSyncer "local").sync "node-1" none removingSampleStore).2.calls
      = [Call.list, Call.delete "clusternode-k4x9p"] ∧
    ((storeSyncer "local").sync "node-1" none removingSampleStore).2.store.items
      = [otherRecord] ∧
    ((storeSyncer "local").sync "node-1" none orphanStore).1 = none ∧
    ((storeSyncer "local").sync "node-1" none orphanStore).2.store.items = [otherRecord] :=
  ⟨rfl,
    (sync_absent_ignores_cluster (sampleScript.syncer "local")
      (failingGetScript.syncer "elsewhere") "node-1" () rfl).1,
    (sync_absent_ignores_cluster (sampleScript.syncer "local")
      (failingGetScript.syncer "elsewhere") "node-1" () rfl).2.1,
    rfl,
    (sync_absent_ignores_cluster (sampleScript.syncer "local")
      (failingGetScript.syncer "elsewhere") "node-1" () rfl).2.2
      "local" "elsewhere" removingSampleStore orphanStore rfl,
    by decide, by decide, by decide, by decide, by decide⟩

end Nodesyncer
